import Mathlib

/-!
Shallow embedding of the per-tick computation pipeline of the Simple Procedural
Walk animation node (SPW_Computations.cpp).

Engine floats are modelled as real numbers.  The host engine's external
collaborators -- the actor transform, socket locations, the spatial probe
results (line trace and sphere trace), the injected float curves, and the
engine's rotator interpolation -- are modelled at their interface as fields of
a tick environment (`TickEnv`), exactly as the specification scopes them
(section 6, external interfaces).  Every definition below is translated from
the corresponding C++ function; the function names are kept.
-/

namespace SPW

noncomputable section

open Classical

/-- FVector: a 3d vector (engine floats modelled as reals). -/
structure Vec3 where
  x : ℝ
  y : ℝ
  z : ℝ

instance : Zero Vec3 := ⟨⟨0, 0, 0⟩⟩

instance : Add Vec3 := ⟨fun a b => ⟨a.x + b.x, a.y + b.y, a.z + b.z⟩⟩

instance : Sub Vec3 := ⟨fun a b => ⟨a.x - b.x, a.y - b.y, a.z - b.z⟩⟩

instance : SMul ℝ Vec3 := ⟨fun r v => ⟨r * v.x, r * v.y, r * v.z⟩⟩

/-- FVector::DotProduct. -/
def dot (a b : Vec3) : ℝ := a.x * b.x + a.y * b.y + a.z * b.z

/-- FVector operator* : component-wise product. -/
def hadamard (a b : Vec3) : Vec3 := ⟨a.x * b.x, a.y * b.y, a.z * b.z⟩

/-- FVector::Size. -/
def vsize (v : Vec3) : ℝ := Real.sqrt (v.x ^ 2 + v.y ^ 2 + v.z ^ 2)

/-- FVector::Dist. -/
def vdist (a b : Vec3) : ℝ := vsize (a - b)

/-- FVector::Normalize: leaves the vector unchanged when its size is zero
(the engine uses a small positive tolerance; the only caller first zeroes
the vector whenever its size is below the speed threshold, so the two
behaviours agree on every reachable input). -/
def vnormalize (v : Vec3) : Vec3 := if vsize v = 0 then v else (vsize v)⁻¹ • v

/-- FMath::Lerp on vectors. -/
def vlerp (a b : Vec3) (t : ℝ) : Vec3 := a + t • (b - a)

/-- FMath::Lerp on scalars. -/
def lerp (a b t : ℝ) : ℝ := a + t * (b - a)

/-- FMath::Clamp. -/
def clamp (x lo hi : ℝ) : ℝ := max lo (min hi x)

/-- UKismetMathLibrary::MapRangeClamped. -/
def mapRangeClamped (value inA inB outA outB : ℝ) : ℝ :=
  lerp outA outB (clamp ((value - inA) / (inB - inA)) 0 1)

/-- FMath::RadiansToDegrees. -/
def radiansToDegrees (r : ℝ) : ℝ := r * (180 / Real.pi)

/-- FMath::DegreesToRadians. -/
def degreesToRadians (d : ℝ) : ℝ := d * (Real.pi / 180)

/-- UKismetMathLibrary::DegAcos (the engine clamps the argument to [-1,1],
as Real.arccos does). -/
def degAcos (v : ℝ) : ℝ := radiansToDegrees (Real.arccos v)

/-- UKismetMathLibrary::DegAtan. -/
def degAtan (v : ℝ) : ℝ := radiansToDegrees (Real.arctan v)

/-- FRotator::ClampAxis: reduce an angle into [0, 360). -/
def clampAxis (a : ℝ) : ℝ := a - 360 * ⌊a / 360⌋

/-- FRotator::NormalizeAxis: reduce an angle into (-180, 180]. -/
def normalizeAxis (a : ℝ) : ℝ := if 180 < clampAxis a then clampAxis a - 360 else clampAxis a

/-- FRotator (component-space foot rotations and body rotations). -/
structure Rot where
  pitch : ℝ
  yaw : ℝ
  roll : ℝ

/-- FRotator(0.f, 0.f, 0.f). -/
def zeroRot : Rot := ⟨0, 0, 0⟩

/-- FHitResult, restricted to the fields the computations read.  The hit
component is identified by an abstract index (`none` models a null component,
as in a default-initialized FHitResult). -/
structure HitRes where
  bBlockingHit : Bool
  impactPoint : Vec3
  impactNormal : Vec3
  component : Option ℕ

/-- A default-constructed FHitResult: zero impact point, no blocking hit,
null component. -/
def defaultHit : HitRes :=
  { bBlockingHit := false, impactPoint := 0, impactNormal := 0, component := none }

/-- ESimpleProceduralWalk_SolverType. -/
inductive SolverType
  | basic
  | advanced
deriving DecidableEq

-- constants from the top of SPW_Computations.cpp
def STEP_PERCENT_AT_BEGINNING : ℝ := 0.15

def STEP_PERCENT_AT_END : ℝ := 0.85

def SPEED_THRESHOLD_MIN : ℝ := 2

/-- Per-group runtime state (FSimpleProceduralWalk_GroupData). -/
structure GroupData where
  bIsUnplanted : Bool
  stepPercent : ℝ

/-- Per-leg runtime state (FSimpleProceduralWalk_LegData), restricted to the
fields the computations read and write.  `supportCompPreviousTransform` stores
the snapshot of the support component's transform as a point map. -/
structure LegData where
  length : ℝ
  tipBoneOriginalRelLocation : Vec3
  groupIndex : ℕ
  footTarget : Vec3
  footLocation : Vec3
  footUnplantLocation : Vec3
  footTargetRotation : Rot
  bEnableIK : Bool
  supportComp : Option ℕ
  supportCompDelta : Vec3
  relLocationToSupportComp : Vec3
  supportCompPreviousTransform : Vec3 → Vec3
  lastHit : HitRes

/-- The mutable runtime arrays of the node (LegsData, GroupsData,
CurrentGroupIndex), indexed by stable integer index. -/
structure SPWState where
  legsData : ℕ → LegData
  groupsData : ℕ → GroupData
  currentGroupIndex : ℕ

/-- The authored configuration of the node (the FAnimNode_SPW properties the
computations read).  `legGroups g` is LegGroups[g].LegIndices; `legOffset i`
is Legs[i].Offset; the injected step curves stand for the SpeedCurve and
HeightCurve float-curve assets. -/
structure Config where
  numLegs : ℕ
  numGroups : ℕ
  legGroups : ℕ → List ℕ
  legOffset : ℕ → Vec3
  stepHeight : ℝ
  stepDistanceForward : ℝ
  stepDistanceRight : ℝ
  stepSequencePercent : ℝ
  stepSlopeReductionMultiplier : ℝ
  minStepDuration : ℝ
  minDistanceToUnplant : ℝ
  fixFeetTargetsAfterPercent : ℝ
  feetTipBonesRotationInterpSpeed : ℝ
  solverType : SolverType
  distanceCheckMultiplier : ℝ
  traceLength : ℝ
  traceZOffset : ℝ
  speedCurve : ℝ → ℝ
  heightCurve : ℝ → ℝ
  bBodyRotateOnFeetLocations : Bool

/-- The per-tick inputs read from the host engine: elapsed time, the pawn's
velocity and orientation basis, the actor transform (as a point map from
actor space to world space), socket locations, the results of the spatial
probes per leg (`lineHit` for LineTraceSingle, `footholdHits` for
SphereTraceMulti), the engine's rotation helpers, and each scene component's
transform and inverse transform as point maps. -/
structure TickEnv where
  worldDeltaSeconds : ℝ
  pawnVelocity : Vec3
  actorForward : Vec3
  actorRight : Vec3
  actorUp : Vec3
  actorYaw : ℝ
  actorTransform : Vec3 → Vec3
  socketLocation : ℕ → Vec3
  tipSocketLocation : ℕ → Vec3
  lineHit : ℕ → Option HitRes
  footholdHits : ℕ → List HitRes
  hitRotCS : HitRes → Rot
  rinterpTo : Rot → Rot → ℝ → ℝ → Rot
  compTransform : ℕ → Vec3 → Vec3
  compInvTransform : ℕ → Vec3 → Vec3

/-- The motion metrics recomputed by UpdatePawnVariables every tick. -/
structure Motion where
  speed : ℝ
  forwardPercent : ℝ
  rightPercent : ℝ
  yawDelta : ℝ
  currentStepLength : ℝ
  currentStepDuration : ℝ
  forwardAcceleration : ℝ
  rightAcceleration : ℝ

/-- The previous-tick caches UpdatePawnVariables reads (PreviousRotation yaw,
previous speed and percents, and the slope-reduction multipliers computed by
the previous tick's ComputeBodyRotation). -/
structure MotionPrev where
  previousRotationYaw : ℝ
  previousSpeed : ℝ
  previousForwardPercent : ℝ
  previousRightPercent : ℝ
  reduceSlopeMultiplierPitchPrev : ℝ
  reduceSlopeMultiplierRollPrev : ℝ

/-- FAnimNode_SPW::GetReductionSlopeMultiplier. -/
def getReductionSlopeMultiplier (forwardPercent rightPercent pitchMult rollMult : ℝ) : ℝ :=
  |forwardPercent| * pitchMult + |rightPercent| * rollMult

/-- FAnimNode_SPW::UpdatePawnVariables. -/
def updatePawnVariables (cfg : Config) (env : TickEnv) (prev : MotionPrev) : Motion :=
  let speed0 := vsize env.pawnVelocity
  let speed := if speed0 ≤ SPEED_THRESHOLD_MIN then 0 else speed0
  let vel := if speed0 ≤ SPEED_THRESHOLD_MIN then (0 : Vec3) else env.pawnVelocity
  let velDir := vnormalize vel
  let forwardPercent := mapRangeClamped (degAcos (dot env.actorForward velDir)) 0 180 1 (-1)
  let rightPercent := mapRangeClamped (degAcos (dot env.actorRight velDir)) 0 180 1 (-1)
  let yawDelta := normalizeAxis (env.actorYaw - prev.previousRotationYaw)
  let currentStepLength :=
    (|forwardPercent * cfg.stepDistanceForward| + |rightPercent * cfg.stepDistanceRight|
        + |cfg.stepDistanceRight * clamp (yawDelta / 360) (-1) 1|)
      * getReductionSlopeMultiplier forwardPercent rightPercent
          prev.reduceSlopeMultiplierPitchPrev prev.reduceSlopeMultiplierRollPrev
  let speedWithAngular := speed + |yawDelta|
  let currentStepDuration :=
    if 5 < speedWithAngular then currentStepLength / speedWithAngular else cfg.minStepDuration
  { speed := speed
    forwardPercent := forwardPercent
    rightPercent := rightPercent
    yawDelta := yawDelta
    currentStepLength := currentStepLength
    currentStepDuration := currentStepDuration
    forwardAcceleration :=
      ((forwardPercent * speed) - (prev.previousForwardPercent * prev.previousSpeed))
        / env.worldDeltaSeconds
    rightAcceleration :=
      ((rightPercent * speed) - (prev.previousRightPercent * prev.previousSpeed))
        / env.worldDeltaSeconds }

/-- StartLocationWithoutZOffset in SetFootTargetLocation: the parent bone
socket location offset forward and right by the step-distance-scaled motion
percentages plus the authored per-leg offset. -/
def probeAnchor (cfg : Config) (env : TickEnv) (motion : Motion) (legIndex : ℕ) : Vec3 :=
  env.socketLocation legIndex
    + ((cfg.stepDistanceForward * motion.forwardPercent) + (cfg.legOffset legIndex).x) • env.actorForward
    + ((cfg.stepDistanceRight * motion.rightPercent) + (cfg.legOffset legIndex).y) • env.actorRight

/-- One iteration of the foothold filter loop in SetFootTargetLocation's
advanced branch: a sphere-trace candidate is considered only when it is
strictly closer to the anchor than the line hit's impact point, and it is
scored by its up-axis distance weighted by one minus the dot product of its
normal with the up vector; the accumulator keeps the best (hit, score) pair. -/
def footholdStep (up anchor : Vec3) (zDistanceToLineHit : ℝ) (acc : HitRes × ℝ) (h : HitRes) :
    HitRes × ℝ :=
  if vdist anchor h.impactPoint < zDistanceToLineHit then
    if vsize (hadamard (anchor - h.impactPoint) up) * (1 - dot h.impactNormal up) < acc.2 then
      (h, vsize (hadamard (anchor - h.impactPoint) up) * (1 - dot h.impactNormal up))
    else acc
  else acc

/-- The foothold filter loop of SetFootTargetLocation's advanced branch,
started from a default-initialized FootHoldBestHit and the initial MinZ of
(TraceLength + TraceZOffset) * 2. -/
def selectFoothold (up anchor : Vec3) (zDistanceToLineHit minZInit : ℝ) (hits : List HitRes) :
    HitRes :=
  (hits.foldl (footholdStep up anchor zDistanceToLineHit) (defaultHit, minZInit)).1

/-- The hit-resolution part of SetFootTargetLocation: returns the (bIsHit, Hit)
pair after the basic or advanced solver logic has run.  A missed line trace
leaves a default-initialized FHitResult, whose zero impact point the advanced
branch's distance computation reads. -/
def resolveHit (cfg : Config) (env : TickEnv) (motion : Motion) (leg : LegData) (legIndex : ℕ) :
    Bool × HitRes :=
  let lineHit := env.lineHit legIndex
  match cfg.solverType with
  | SolverType.basic => (lineHit.isSome, lineHit.getD defaultHit)
  | SolverType.advanced =>
    let anchor := probeAnchor cfg env motion legIndex
    let zDistanceToLineHit := vdist anchor (lineHit.getD defaultHit).impactPoint
    if lineHit = none ∨ leg.length * cfg.distanceCheckMultiplier < zDistanceToLineHit then
      let best := selectFoothold env.actorUp anchor zDistanceToLineHit
        ((cfg.traceLength + cfg.traceZOffset) * 2) (env.footholdHits legIndex)
      if best.bBlockingHit then (true, best) else (lineHit.isSome, lineHit.getD defaultHit)
    else (lineHit.isSome, lineHit.getD defaultHit)

/-- The common tail of SetFootTargetLocation after hit resolution: foot
rotation selection, target update with the freeze rule for late-swing legs,
the resting-position fallback on a miss, rotation interpolation, the IK
enable flag, and the LastHit save. -/
def applyFootResult (cfg : Config) (env : TickEnv) (groups : ℕ → GroupData) (leg : LegData)
    (legIndex : ℕ) (res : Bool × HitRes) : LegData :=
  let bIsHit := res.1
  let hit := res.2
  let unplanted := (groups leg.groupIndex).bIsUnplanted
  let stepPercent := (groups leg.groupIndex).stepPercent
  let targetFootRotationCS :=
    if bIsHit then
      if unplanted = false
          ∨ (unplanted = true ∧ (stepPercent < STEP_PERCENT_AT_BEGINNING ∨ STEP_PERCENT_AT_END < stepPercent)) then
        env.hitRotCS hit
      else zeroRot
    else zeroRot
  let footTargetFromHit := hit.impactPoint + (⟨0, 0, (cfg.legOffset legIndex).z⟩ : Vec3)
  let newFootTarget :=
    if bIsHit then
      if unplanted = true then
        if stepPercent < cfg.fixFeetTargetsAfterPercent then footTargetFromHit
        else leg.footTarget + leg.supportCompDelta
      else footTargetFromHit
    else env.actorTransform leg.tipBoneOriginalRelLocation
  { leg with
    footTarget := newFootTarget
    footTargetRotation :=
      env.rinterpTo leg.footTargetRotation targetFootRotationCS env.worldDeltaSeconds
        cfg.feetTipBonesRotationInterpSpeed
    bEnableIK := bIsHit
    lastHit := hit }

/-- FAnimNode_SPW::SetFootTargetLocation. -/
def setFootTargetLocation (cfg : Config) (env : TickEnv) (motion : Motion)
    (groups : ℕ → GroupData) (leg : LegData) (legIndex : ℕ) : LegData :=
  applyFootResult cfg env groups leg legIndex (resolveHit cfg env motion leg legIndex)

/-- FAnimNode_SPW::SetFeetTargetLocations: the per-leg updates are
independent (each reads only its own leg record and the group data), so the
loop is a pointwise map over the leg indices. -/
def setFeetTargetLocations (cfg : Config) (env : TickEnv) (motion : Motion) (s : SPWState) :
    SPWState :=
  { s with
    legsData := fun i =>
      if i < cfg.numLegs then setFootTargetLocation cfg env motion s.groupsData (s.legsData i) i
      else s.legsData i }

/-- FAnimNode_SPW::SetSupportComponentData: records the component of the
leg's last hit; when that component is valid, snapsnots its transform and
stores the reference location expressed in the component's frame. -/
def setSupportComponentData (env : TickEnv) (leg : LegData) (refLocation : Vec3) : LegData :=
  match leg.lastHit.component with
  | some c =>
    { leg with
      supportComp := some c
      supportCompPreviousTransform := env.compTransform c
      relLocationToSupportComp := env.compInvTransform c refLocation }
  | none => { leg with supportComp := none }

/-- Functional update of one leg record. -/
def updateLeg (s : SPWState) (i : ℕ) (d : LegData) : SPWState :=
  { s with legsData := fun j => if j = i then d else s.legsData j }

/-- Functional update of one group record. -/
def updateGroup (s : SPWState) (g : ℕ) (d : GroupData) : SPWState :=
  { s with groupsData := fun j => if j = g then d else s.groupsData j }

/-- The previous-group computation in SetCurrentGroupUnplanted (wraps to the
last group below index 0). -/
def prevGroupIndex (cfg : Config) (c : ℕ) : ℕ := if c = 0 then cfg.numGroups - 1 else c - 1

/-- FAnimNode_SPW::SetNextCurrentGroupIndex. -/
def nextGroupIndex (cfg : Config) (c : ℕ) : ℕ := if c + 1 = cfg.numGroups then 0 else c + 1

/-- The per-leg body of the unplant loop in SetCurrentGroupUnplanted: snap
the unplant anchor to the current foot location and recapture the support
component there. -/
def unplantLegStep (env : TickEnv) (s : SPWState) (i : ℕ) : SPWState :=
  updateLeg s i
    (setSupportComponentData env
      { s.legsData i with footUnplantLocation := (s.legsData i).footLocation }
      ((s.legsData i).footLocation))

/-- FAnimNode_SPW::SetCurrentGroupUnplanted. -/
def setCurrentGroupUnplanted (cfg : Config) (env : TickEnv) (s : SPWState) : SPWState :=
  if (s.groupsData s.currentGroupIndex).bIsUnplanted then s
  else if ¬ (∃ i ∈ cfg.legGroups s.currentGroupIndex,
      cfg.minDistanceToUnplant ≤ vdist (s.legsData i).footLocation (s.legsData i).footTarget) then s
  else if (s.groupsData (prevGroupIndex cfg s.currentGroupIndex)).bIsUnplanted = true
      ∧ (s.groupsData (prevGroupIndex cfg s.currentGroupIndex)).stepPercent
          < cfg.stepSequencePercent then s
  else
    let s1 := updateGroup s s.currentGroupIndex { bIsUnplanted := true, stepPercent := 0 }
    let s2 := (cfg.legGroups s.currentGroupIndex).foldl (unplantLegStep env) s1
    { s2 with currentGroupIndex := nextGroupIndex cfg s.currentGroupIndex }

/-- The condition under which SetCurrentGroupUnplanted fires the
PLANTED-to-UNPLANTED transition: the current group is planted, some leg of it
has drifted at least MinDistanceToUnplant from its target, and the previous
group is not an unplanted group with step percent below StepSequencePercent. -/
def unplantFires (cfg : Config) (s : SPWState) : Prop :=
  (s.groupsData s.currentGroupIndex).bIsUnplanted = false
  ∧ (∃ i ∈ cfg.legGroups s.currentGroupIndex,
      cfg.minDistanceToUnplant ≤ vdist (s.legsData i).footLocation (s.legsData i).footTarget)
  ∧ ¬ ((s.groupsData (prevGroupIndex cfg s.currentGroupIndex)).bIsUnplanted = true
      ∧ (s.groupsData (prevGroupIndex cfg s.currentGroupIndex)).stepPercent
          < cfg.stepSequencePercent)

/-- The per-leg body of the falling branch of ComputeFeet. -/
def fallingLegStep (s : SPWState) (i : ℕ) : SPWState :=
  updateLeg s i { s.legsData i with footLocation := (s.legsData i).footTarget }

/-- The per-leg body of the unplanted branch of ComputeFeet: swing
interpolation between the unplant anchor and the target plus the height-curve
lift, then the moving-platform delta added to the anchor. -/
def swingLegStep (env : TickEnv) (interpSpeed relativeZ : ℝ) (s : SPWState) (i : ℕ) : SPWState :=
  updateLeg s i
    { s.legsData i with
      footLocation :=
        vlerp (s.legsData i).footUnplantLocation (s.legsData i).footTarget interpSpeed
          + relativeZ • env.actorUp
      footUnplantLocation := (s.legsData i).footUnplantLocation + (s.legsData i).supportCompDelta }

/-- The per-leg body of the planted branch of ComputeFeet: a planted foot
follows the support delta only while within tolerance of its tip socket. -/
def plantedLegStep (cfg : Config) (env : TickEnv) (s : SPWState) (i : ℕ) : SPWState :=
  if vdist (s.legsData i).footLocation (env.tipSocketLocation i)
      ≤ cfg.minDistanceToUnplant * cfg.distanceCheckMultiplier then
    updateLeg s i
      { s.legsData i with footLocation := (s.legsData i).footLocation + (s.legsData i).supportCompDelta }
  else s

/-- The per-group body of FAnimNode_SPW::ComputeFeet. -/
def computeFeetGroupStep (cfg : Config) (env : TickEnv) (motion : Motion) (bIsFalling : Bool)
    (s : SPWState) (gIdx : ℕ) : SPWState :=
  if bIsFalling then (cfg.legGroups gIdx).foldl fallingLegStep s
  else if (s.groupsData gIdx).bIsUnplanted then
    let newStepPercent :=
      clamp ((s.groupsData gIdx).stepPercent + env.worldDeltaSeconds / motion.currentStepDuration)
        0 1
    let s1 := updateGroup s gIdx
      { bIsUnplanted := (s.groupsData gIdx).bIsUnplanted, stepPercent := newStepPercent }
    (cfg.legGroups gIdx).foldl
      (swingLegStep env (cfg.speedCurve newStepPercent) (cfg.heightCurve newStepPercent * cfg.stepHeight)) s1
  else (cfg.legGroups gIdx).foldl (plantedLegStep cfg env) s

/-- FAnimNode_SPW::ComputeFeet. -/
def computeFeet (cfg : Config) (env : TickEnv) (motion : Motion) (bIsFalling : Bool)
    (s : SPWState) : SPWState :=
  (List.range cfg.numGroups).foldl (computeFeetGroupStep cfg env motion bIsFalling) s

/-- The per-leg body of the plant loop in SetGroupsPlanted: recapture the
support component at the leg's current foot location. -/
def plantLegStep (env : TickEnv) (s : SPWState) (i : ℕ) : SPWState :=
  updateLeg s i (setSupportComponentData env (s.legsData i) ((s.legsData i).footLocation))

/-- The per-group body of FAnimNode_SPW::SetGroupsPlanted. -/
def setGroupsPlantedStep (cfg : Config) (env : TickEnv) (s : SPWState) (gIdx : ℕ) : SPWState :=
  if (s.groupsData gIdx).bIsUnplanted = true ∧ (s.groupsData gIdx).stepPercent = 1 then
    let s1 := (cfg.legGroups gIdx).foldl (plantLegStep env) s
    updateGroup s1 gIdx { bIsUnplanted := false, stepPercent := (s1.groupsData gIdx).stepPercent }
  else s

/-- FAnimNode_SPW::SetGroupsPlanted. -/
def setGroupsPlanted (cfg : Config) (env : TickEnv) (s : SPWState) : SPWState :=
  (List.range cfg.numGroups).foldl (setGroupsPlantedStep cfg env) s

/-- The on-ground walk portion of Evaluate_Computations: feet targets, the
unplant check for the current group, the feet movement, and the plant check,
in this order.  (UpdatePawnVariables and SetSupportCompDeltas run before this
portion and touch no group data; ComputeBodyTransform runs after it.) -/
def evaluateWalkOnGround (cfg : Config) (env : TickEnv) (motion : Motion) (s : SPWState) :
    SPWState :=
  setGroupsPlanted cfg env
    (computeFeet cfg env motion false
      (setCurrentGroupUnplanted cfg env
        (setFeetTargetLocations cfg env motion s)))

/-- FAnimNode_SPW::ResetFeetTargetsAndLocations. -/
def resetFeetTargetsAndLocations (cfg : Config) (env : TickEnv) (motion : Motion) (s : SPWState) :
    SPWState :=
  let s1 := setFeetTargetLocations cfg env motion s
  { legsData := fun i =>
      if i < cfg.numLegs then
        { s1.legsData i with
          footLocation := env.actorTransform ((s1.legsData i).tipBoneOriginalRelLocation)
          footUnplantLocation := env.actorTransform ((s1.legsData i).tipBoneOriginalRelLocation) }
      else s1.legsData i
    groupsData := fun g =>
      if g < cfg.numGroups then { bIsUnplanted := false, stepPercent := 0 } else s1.groupsData g
    currentGroupIndex := 0 }

/-- PitchFromFeetLocations in FAnimNode_SPW::ComputeBodyRotation (the
function receives the four directional foot-target averages as arguments). -/
def pitchFromFeetLocations (cfg : Config) (fwdAvg backAvg : Vec3) : ℝ :=
  if cfg.bBodyRotateOnFeetLocations then degAtan ((fwdAvg.z - backAvg.z) / (fwdAvg.x - backAvg.x))
  else 0

/-- RollFromFeetLocations in FAnimNode_SPW::ComputeBodyRotation. -/
def rollFromFeetLocations (cfg : Config) (rightAvg leftAvg : Vec3) : ℝ :=
  if cfg.bBodyRotateOnFeetLocations then
    -degAtan ((rightAvg.z - leftAvg.z) / (rightAvg.y - leftAvg.y))
  else 0

/-- ReduceSlopeMultiplierPitch as assigned in ComputeBodyRotation: the code
passes the pitch angle (already in degrees) through RadiansToDegrees before
taking the cosine. -/
def reduceSlopeMultiplierPitch (cfg : Config) (fwdAvg backAvg : Vec3) : ℝ :=
  mapRangeClamped |Real.cos (radiansToDegrees (pitchFromFeetLocations cfg fwdAvg backAvg))|
    0 1 (1 - cfg.stepSlopeReductionMultiplier) 1

/-- ReduceSlopeMultiplierRoll as assigned in ComputeBodyRotation. -/
def reduceSlopeMultiplierRoll (cfg : Config) (rightAvg leftAvg : Vec3) : ℝ :=
  mapRangeClamped |Real.cos (radiansToDegrees (rollFromFeetLocations cfg rightAvg leftAvg))|
    0 1 (1 - cfg.stepSlopeReductionMultiplier) 1

/-- The slope multiplier the specification describes (and the code's own
comment intends): the absolute cosine of the body angle, the angle being in
degrees, mapped into [1 - StepSlopeReductionMultiplier, 1], so that a zero
tilt yields 1 and a quarter-turn tilt yields the configured minimum.  This
definition follows the spec's words for comparison with
`reduceSlopeMultiplierPitch`. -/
def specSlopeMultiplierOfAngle (angleDeg m : ℝ) : ℝ :=
  mapRangeClamped |Real.cos (degreesToRadians angleDeg)| 0 1 (1 - m) 1

/-!
Concrete fixtures used to evaluate the definitions at specific inputs: a
one-leg, one-group rig at the world origin with the plugin's default
configuration values, plus the specific probe results each scenario needs.
-/

/-- A leg at rest at the origin, 20 units long, in group 0. -/
def legW : LegData :=
  { length := 20
    tipBoneOriginalRelLocation := 0
    groupIndex := 0
    footTarget := 0
    footLocation := 0
    footUnplantLocation := 0
    footTargetRotation := zeroRot
    bEnableIK := false
    supportComp := none
    supportCompDelta := 0
    relLocationToSupportComp := 0
    supportCompPreviousTransform := id
    lastHit := defaultHit }

/-- A trivial tick environment: identity transforms, zero vectors, no probe
hits, one second of elapsed time. -/
def envW : TickEnv :=
  { worldDeltaSeconds := 1
    pawnVelocity := 0
    actorForward := 0
    actorRight := 0
    actorUp := 0
    actorYaw := 0
    actorTransform := id
    socketLocation := fun _ => 0
    tipSocketLocation := fun _ => 0
    lineHit := fun _ => none
    footholdHits := fun _ => []
    hitRotCS := fun _ => zeroRot
    rinterpTo := fun r _ _ _ => r
    compTransform := fun _ => id
    compInvTransform := fun _ => id }

/-- A one-leg, one-group configuration with the node's default property
values (basic solver). -/
def cfgW : Config :=
  { numLegs := 1
    numGroups := 1
    legGroups := fun g => if g = 0 then [0] else []
    legOffset := fun _ => 0
    stepHeight := 20
    stepDistanceForward := 50
    stepDistanceRight := 30
    stepSequencePercent := 1
    stepSlopeReductionMultiplier := 0.75
    minStepDuration := 0.15
    minDistanceToUnplant := 5
    fixFeetTargetsAfterPercent := 0.5
    feetTipBonesRotationInterpSpeed := 15
    solverType := SolverType.basic
    distanceCheckMultiplier := 1.2
    traceLength := 350
    traceZOffset := 50
    speedCurve := fun t => t
    heightCurve := fun _ => 0
    bBodyRotateOnFeetLocations := true }

/-- A motion sample with unit step duration and no movement intent. -/
def motionW : Motion :=
  { speed := 0
    forwardPercent := 0
    rightPercent := 0
    yawDelta := 0
    currentStepLength := 0
    currentStepDuration := 1
    forwardAcceleration := 0
    rightAcceleration := 0 }

/-- A previous-tick motion cache of all zeroes. -/
def prevW : MotionPrev :=
  { previousRotationYaw := 0
    previousSpeed := 0
    previousForwardPercent := 0
    previousRightPercent := 0
    reduceSlopeMultiplierPitchPrev := 1
    reduceSlopeMultiplierRollPrev := 1 }

/-- The rig at rest: every group planted at step percent 0. -/
def sW : SPWState :=
  { legsData := fun _ => legW
    groupsData := fun _ => { bIsUnplanted := false, stepPercent := 0 }
    currentGroupIndex := 0 }

/-- A blocking line-trace hit 10 units under the origin. -/
def hitA : HitRes :=
  { bBlockingHit := true, impactPoint := ⟨0, 0, -10⟩, impactNormal := ⟨0, 0, 1⟩, component := some 7 }

/-- A blocking sphere-trace candidate 5 units under the origin. -/
def hitB : HitRes :=
  { bBlockingHit := true, impactPoint := ⟨0, 0, -5⟩, impactNormal := ⟨0, 0, 1⟩, component := some 3 }

/-- A rig whose single group is unplanted at step percent exactly 1. -/
def sPlant : SPWState :=
  { legsData := fun _ => legW
    groupsData := fun _ => { bIsUnplanted := true, stepPercent := 1 }
    currentGroupIndex := 0 }

/-- A two-group rig whose leg 0 has drifted 6 units from its target. -/
def sDrift : SPWState :=
  { legsData := fun _ => { legW with footTarget := ⟨6, 0, 0⟩ }
    groupsData := fun _ => { bIsUnplanted := false, stepPercent := 0 }
    currentGroupIndex := 0 }

/-- A leg in mid swing with a nonzero stored target and support delta. -/
def leg7 : LegData :=
  { legW with footTarget := ⟨5, 5, 5⟩, supportCompDelta := ⟨1, 0, 0⟩ }

/-- Group data: group 0 unplanted at step percent 0.6 (past the freeze
threshold of 0.5). -/
def groups7 : ℕ → GroupData := fun _ => { bIsUnplanted := true, stepPercent := 0.6 }

/-- Group data: every group planted. -/
def groupsPlantedW : ℕ → GroupData := fun _ => { bIsUnplanted := false, stepPercent := 0 }

/-- The environment with a successful line hit for every leg. -/
def envHit : TickEnv := { envW with lineHit := fun _ => some hitA }

/-- The one-leg configuration with the advanced solver. -/
def cfgAdv : Config := { cfgW with solverType := SolverType.advanced }

/-- The advanced-solver environment of C10: the line trace misses while the
sphere trace returns one blocking candidate. -/
def envVol : TickEnv := { envW with footholdHits := fun _ => [hitB] }

/-- Average forward and backward foot targets one unit apart in x and z,
giving a 45 degree pitch. -/
def avgFwd8 : Vec3 := ⟨1, 0, 1⟩

/-- See avgFwd8. -/
def avgBack8 : Vec3 := ⟨0, 0, 0⟩

end

open Classical

/-! Component lemmas for the vector operations and the state updates. -/

@[simp] theorem zeroVec_x : (0 : Vec3).x = 0 := rfl

@[simp] theorem zeroVec_y : (0 : Vec3).y = 0 := rfl

@[simp] theorem zeroVec_z : (0 : Vec3).z = 0 := rfl

@[simp] theorem addVec_x (a b : Vec3) : (a + b).x = a.x + b.x := rfl

@[simp] theorem addVec_y (a b : Vec3) : (a + b).y = a.y + b.y := rfl

@[simp] theorem addVec_z (a b : Vec3) : (a + b).z = a.z + b.z := rfl

@[simp] theorem subVec_x (a b : Vec3) : (a - b).x = a.x - b.x := rfl

@[simp] theorem subVec_y (a b : Vec3) : (a - b).y = a.y - b.y := rfl

@[simp] theorem subVec_z (a b : Vec3) : (a - b).z = a.z - b.z := rfl

@[simp] theorem smulVec_x (r : ℝ) (v : Vec3) : (r • v).x = r * v.x := rfl

@[simp] theorem smulVec_y (r : ℝ) (v : Vec3) : (r • v).y = r * v.y := rfl

@[simp] theorem smulVec_z (r : ℝ) (v : Vec3) : (r • v).z = r * v.z := rfl

@[ext] theorem Vec3.ext (a b : Vec3) (hx : a.x = b.x) (hy : a.y = b.y) (hz : a.z = b.z) :
    a = b := by
  cases a; cases b
  cases hx; cases hy; cases hz
  rfl

@[simp] theorem updateLeg_groupsData (s : SPWState) (i : ℕ) (d : LegData) :
    (updateLeg s i d).groupsData = s.groupsData := rfl

@[simp] theorem updateLeg_currentGroupIndex (s : SPWState) (i : ℕ) (d : LegData) :
    (updateLeg s i d).currentGroupIndex = s.currentGroupIndex := rfl

theorem updateLeg_legsData (s : SPWState) (i : ℕ) (d : LegData) (j : ℕ) :
    (updateLeg s i d).legsData j = if j = i then d else s.legsData j := rfl

@[simp] theorem updateGroup_legsData (s : SPWState) (g : ℕ) (d : GroupData) :
    (updateGroup s g d).legsData = s.legsData := rfl

@[simp] theorem updateGroup_currentGroupIndex (s : SPWState) (g : ℕ) (d : GroupData) :
    (updateGroup s g d).currentGroupIndex = s.currentGroupIndex := rfl

theorem updateGroup_groupsData (s : SPWState) (g : ℕ) (d : GroupData) (j : ℕ) :
    (updateGroup s g d).groupsData j = if j = g then d else s.groupsData j := rfl

/-! Generic lemmas about folds over index lists. -/

theorem foldl_groupsData_const (f : SPWState → ℕ → SPWState)
    (hf : ∀ s i, (f s i).groupsData = s.groupsData) :
    ∀ (l : List ℕ) (s : SPWState), (l.foldl f s).groupsData = s.groupsData := by
  intro l
  induction l with
  | nil => intro s; rfl
  | cons a t ih => intro s; rw [List.foldl_cons, ih, hf]

theorem foldl_currentGroupIndex_const (f : SPWState → ℕ → SPWState)
    (hf : ∀ s i, (f s i).currentGroupIndex = s.currentGroupIndex) :
    ∀ (l : List ℕ) (s : SPWState), (l.foldl f s).currentGroupIndex = s.currentGroupIndex := by
  intro l
  induction l with
  | nil => intro s; rfl
  | cons a t ih => intro s; rw [List.foldl_cons, ih, hf]

theorem foldl_legsData_not_mem (f : SPWState → ℕ → SPWState)
    (hf : ∀ s i j, j ≠ i → (f s i).legsData j = s.legsData j) :
    ∀ (l : List ℕ) (s : SPWState) (j : ℕ), j ∉ l → (l.foldl f s).legsData j = s.legsData j := by
  intro l
  induction l with
  | nil => intro s j _; rfl
  | cons a t ih =>
    intro s j hj
    rw [List.foldl_cons, ih (f s a) j (fun h => hj (List.mem_cons_of_mem a h)),
      hf s a j (fun he => hj (he ▸ List.mem_cons_self a t))]

theorem foldl_legsData_eval (f : SPWState → ℕ → SPWState) (g : ℕ → LegData → LegData)
    (hf : ∀ s i j, (f s i).legsData j = if j = i then g j (s.legsData j) else s.legsData j) :
    ∀ (l : List ℕ), l.Nodup → ∀ (s : SPWState) (j : ℕ),
      (l.foldl f s).legsData j = if j ∈ l then g j (s.legsData j) else s.legsData j := by
  intro l
  induction l with
  | nil => intro _ s j; simp
  | cons a t ih =>
    intro hnd s j
    obtain ⟨hna, hndt⟩ := List.nodup_cons.mp hnd
    rw [List.foldl_cons, ih hndt]
    by_cases hja : j = a
    · subst hja
      have hjt : j ∉ t := hna
      simp only [hjt, if_false, List.mem_cons, true_or, if_true, hf, if_pos rfl]
    · by_cases hjt : j ∈ t
      · simp only [hjt, if_true, List.mem_cons, or_true, hf, hja, if_false]
      · simp only [hjt, if_false, List.mem_cons, hja, false_or, hf]

theorem foldl_groupsData_eval (f : SPWState → ℕ → SPWState) (h : GroupData → GroupData)
    (hf : ∀ s i j, (f s i).groupsData j = if j = i then h (s.groupsData j) else s.groupsData j) :
    ∀ (l : List ℕ), l.Nodup → ∀ (s : SPWState) (g : ℕ),
      (l.foldl f s).groupsData g = if g ∈ l then h (s.groupsData g) else s.groupsData g := by
  intro l
  induction l with
  | nil => intro _ s g; simp
  | cons a t ih =>
    intro hnd s g
    obtain ⟨hna, hndt⟩ := List.nodup_cons.mp hnd
    rw [List.foldl_cons, ih hndt]
    by_cases hga : g = a
    · subst hga
      have hgt : g ∉ t := hna
      simp only [hgt, if_false, List.mem_cons, true_or, if_true, hf, if_pos rfl]
    · by_cases hgt : g ∈ t
      · simp only [hgt, if_true, List.mem_cons, or_true, hf, hga, if_false]
      · simp only [hgt, if_false, List.mem_cons, hga, false_or, hf]

/-! Facts about the individual per-leg loop bodies. -/

theorem unplantLegStep_groupsData (env : TickEnv) (s : SPWState) (i : ℕ) :
    (unplantLegStep env s i).groupsData = s.groupsData := rfl

theorem unplantLegStep_currentGroupIndex (env : TickEnv) (s : SPWState) (i : ℕ) :
    (unplantLegStep env s i).currentGroupIndex = s.currentGroupIndex := rfl

theorem swingLegStep_groupsData (env : TickEnv) (a b : ℝ) (s : SPWState) (i : ℕ) :
    (swingLegStep env a b s i).groupsData = s.groupsData := rfl

theorem plantedLegStep_groupsData (cfg : Config) (env : TickEnv) (s : SPWState) (i : ℕ) :
    (plantedLegStep cfg env s i).groupsData = s.groupsData := by
  unfold plantedLegStep; split <;> rfl

theorem fallingLegStep_groupsData (s : SPWState) (i : ℕ) :
    (fallingLegStep s i).groupsData = s.groupsData := rfl

theorem plantLegStep_groupsData (env : TickEnv) (s : SPWState) (i : ℕ) :
    (plantLegStep env s i).groupsData = s.groupsData := rfl

theorem plantLegStep_legsData (env : TickEnv) (s : SPWState) (i j : ℕ) :
    (plantLegStep env s i).legsData j =
      if j = i then setSupportComponentData env (s.legsData j) ((s.legsData j).footLocation)
      else s.legsData j := by
  unfold plantLegStep
  rw [updateLeg_legsData]
  by_cases hji : j = i
  · subst hji; simp
  · simp [hji]

theorem plantedLegStep_legsData_ne (cfg : Config) (env : TickEnv) (s : SPWState) (i j : ℕ)
    (hji : j ≠ i) : (plantedLegStep cfg env s i).legsData j = s.legsData j := by
  unfold plantedLegStep
  split
  · rw [updateLeg_legsData, if_neg hji]
  · rfl

theorem unplantLegStep_legsData_ne (env : TickEnv) (s : SPWState) (i j : ℕ) (hji : j ≠ i) :
    (unplantLegStep env s i).legsData j = s.legsData j := by
  unfold unplantLegStep; rw [updateLeg_legsData, if_neg hji]

theorem swingLegStep_legsData_ne (env : TickEnv) (a b : ℝ) (s : SPWState) (i j : ℕ)
    (hji : j ≠ i) : (swingLegStep env a b s i).legsData j = s.legsData j := by
  unfold swingLegStep; rw [updateLeg_legsData, if_neg hji]

theorem fallingLegStep_legsData_ne (s : SPWState) (i j : ℕ) (hji : j ≠ i) :
    (fallingLegStep s i).legsData j = s.legsData j := by
  unfold fallingLegStep; rw [updateLeg_legsData, if_neg hji]

theorem plantLegStep_legsData_ne (env : TickEnv) (s : SPWState) (i j : ℕ) (hji : j ≠ i) :
    (plantLegStep env s i).legsData j = s.legsData j := by
  rw [plantLegStep_legsData, if_neg hji]

/-! Projections of the pipeline stages. -/

@[simp] theorem setFeetTargetLocations_groupsData (cfg : Config) (env : TickEnv) (motion : Motion)
    (s : SPWState) : (setFeetTargetLocations cfg env motion s).groupsData = s.groupsData := rfl

@[simp] theorem setFeetTargetLocations_currentGroupIndex (cfg : Config) (env : TickEnv)
    (motion : Motion) (s : SPWState) :
    (setFeetTargetLocations cfg env motion s).currentGroupIndex = s.currentGroupIndex := rfl

theorem setCurrentGroupUnplanted_groupsData (cfg : Config) (env : TickEnv) (s : SPWState)
    (j : ℕ) :
    (setCurrentGroupUnplanted cfg env s).groupsData j =
      if unplantFires cfg s ∧ j = s.currentGroupIndex then
        { bIsUnplanted := true, stepPercent := 0 }
      else s.groupsData j := by
  unfold setCurrentGroupUnplanted
  by_cases h1 : (s.groupsData s.currentGroupIndex).bIsUnplanted = true
  · rw [if_pos h1, if_neg]
    rintro ⟨⟨hpl, _, _⟩, _⟩
    rw [h1] at hpl
    exact Bool.true_eq_false.mp hpl
  · rw [if_neg (by simp [h1])]
    by_cases h2 : ∃ i ∈ cfg.legGroups s.currentGroupIndex,
        cfg.minDistanceToUnplant ≤ vdist (s.legsData i).footLocation (s.legsData i).footTarget
    · rw [if_neg (by simpa using h2)]
      by_cases h3 : (s.groupsData (prevGroupIndex cfg s.currentGroupIndex)).bIsUnplanted = true
          ∧ (s.groupsData (prevGroupIndex cfg s.currentGroupIndex)).stepPercent
              < cfg.stepSequencePercent
      · rw [if_pos h3, if_neg]
        rintro ⟨⟨_, _, hno3⟩, _⟩
        exact hno3 h3
      · rw [if_neg h3]
        have hfires : unplantFires cfg s :=
          ⟨Bool.not_eq_true _ ▸ (Bool.eq_false_iff.mpr (fun hh => h1 hh)), h2, h3⟩
        show ((cfg.legGroups s.currentGroupIndex).foldl (unplantLegStep env)
            (updateGroup s s.currentGroupIndex
              { bIsUnplanted := true, stepPercent := 0 })).groupsData j = _
        rw [foldl_groupsData_const _ (unplantLegStep_groupsData env),
          updateGroup_groupsData]
        by_cases hj : j = s.currentGroupIndex
        · rw [if_pos hj, if_pos ⟨hfires, hj⟩]
        · rw [if_neg hj, if_neg (fun hc => hj hc.2)]
    · rw [if_pos (by simpa using h2), if_neg]
      rintro ⟨⟨_, hex, _⟩, _⟩
      exact h2 hex

theorem setCurrentGroupUnplanted_currentGroupIndex_of_planted (cfg : Config) (env : TickEnv)
    (s : SPWState) (hnf : ¬ unplantFires cfg s) :
    (setCurrentGroupUnplanted cfg env s).currentGroupIndex = s.currentGroupIndex := by
  unfold setCurrentGroupUnplanted
  by_cases h1 : (s.groupsData s.currentGroupIndex).bIsUnplanted = true
  · rw [if_pos h1]
  · rw [if_neg (by simp [h1])]
    by_cases h2 : ∃ i ∈ cfg.legGroups s.currentGroupIndex,
        cfg.minDistanceToUnplant ≤ vdist (s.legsData i).footLocation (s.legsData i).footTarget
    · rw [if_neg (by simpa using h2)]
      by_cases h3 : (s.groupsData (prevGroupIndex cfg s.currentGroupIndex)).bIsUnplanted = true
          ∧ (s.groupsData (prevGroupIndex cfg s.currentGroupIndex)).stepPercent
              < cfg.stepSequencePercent
      · rw [if_pos h3]
      · exact absurd ⟨Bool.eq_false_iff.mpr (fun hh => h1 hh), h2, h3⟩ hnf
    · rw [if_pos (by simpa using h2)]

theorem computeFeetGroupStep_groupsData (cfg : Config) (env : TickEnv) (motion : Motion)
    (s : SPWState) (i j : ℕ) :
    (computeFeetGroupStep cfg env motion false s i).groupsData j =
      if j = i then
        (if (s.groupsData j).bIsUnplanted then
          { bIsUnplanted := (s.groupsData j).bIsUnplanted
            stepPercent := clamp ((s.groupsData j).stepPercent
              + env.worldDeltaSeconds / motion.currentStepDuration) 0 1 }
         else s.groupsData j)
      else s.groupsData j := by
  unfold computeFeetGroupStep
  rw [if_neg (by simp)]
  by_cases hu : (s.groupsData i).bIsUnplanted
  · rw [if_pos hu, foldl_groupsData_const _ (fun s i => swingLegStep_groupsData env _ _ s i)]
    rw [updateGroup_groupsData]
    by_cases hj : j = i
    · subst hj; rw [if_pos rfl, if_pos rfl, if_pos hu]
    · rw [if_neg hj, if_neg hj]
  · rw [if_neg hu, foldl_groupsData_const _ (fun s i => plantedLegStep_groupsData cfg env s i)]
    by_cases hj : j = i
    · subst hj; rw [if_pos rfl, if_neg hu]
    · rw [if_neg hj]

theorem computeFeet_groupsData (cfg : Config) (env : TickEnv) (motion : Motion) (s : SPWState)
    (g : ℕ) :
    (computeFeet cfg env motion false s).groupsData g =
      if g < cfg.numGroups ∧ (s.groupsData g).bIsUnplanted = true then
        { bIsUnplanted := (s.groupsData g).bIsUnplanted
          stepPercent := clamp ((s.groupsData g).stepPercent
            + env.worldDeltaSeconds / motion.currentStepDuration) 0 1 }
      else s.groupsData g := by
  unfold computeFeet
  rw [foldl_groupsData_eval _
    (fun gd => if gd.bIsUnplanted then
      { bIsUnplanted := gd.bIsUnplanted
        stepPercent := clamp (gd.stepPercent
          + env.worldDeltaSeconds / motion.currentStepDuration) 0 1 }
     else gd)
    (fun s i j => computeFeetGroupStep_groupsData cfg env motion s i j)
    (List.range cfg.numGroups) (List.nodup_range _)]
  by_cases hg : g < cfg.numGroups
  · rw [if_pos (List.mem_range.mpr hg)]
    by_cases hu : (s.groupsData g).bIsUnplanted
    · rw [if_pos hu, if_pos ⟨hg, hu⟩]
    · rw [if_neg hu, if_neg (fun hc => hu hc.2)]
  · rw [if_neg (fun hm => hg (List.mem_range.mp hm)), if_neg (fun hc => hg hc.1)]

theorem setGroupsPlantedStep_groupsData (cfg : Config) (env : TickEnv) (s : SPWState) (i j : ℕ) :
    (setGroupsPlantedStep cfg env s i).groupsData j =
      if j = i then
        (if (s.groupsData j).bIsUnplanted = true ∧ (s.groupsData j).stepPercent = 1 then
          { bIsUnplanted := false, stepPercent := (s.groupsData j).stepPercent }
         else s.groupsData j)
      else s.groupsData j := by
  unfold setGroupsPlantedStep
  by_cases hc : (s.groupsData i).bIsUnplanted = true ∧ (s.groupsData i).stepPercent = 1
  · rw [if_pos hc, updateGroup_groupsData,
      foldl_groupsData_const _ (plantLegStep_groupsData env)]
    by_cases hj : j = i
    · subst hj
      rw [if_pos rfl, if_pos rfl, if_pos hc]
    · rw [if_neg hj, if_neg hj]
  · rw [if_neg hc]
    by_cases hj : j = i
    · subst hj; rw [if_pos rfl, if_neg hc]
    · rw [if_neg hj]

theorem setGroupsPlanted_groupsData (cfg : Config) (env : TickEnv) (s : SPWState) (g : ℕ) :
    (setGroupsPlanted cfg env s).groupsData g =
      if g < cfg.numGroups ∧ (s.groupsData g).bIsUnplanted = true
          ∧ (s.groupsData g).stepPercent = 1 then
        { bIsUnplanted := false, stepPercent := (s.groupsData g).stepPercent }
      else s.groupsData g := by
  unfold setGroupsPlanted
  rw [foldl_groupsData_eval _
    (fun gd => if gd.bIsUnplanted = true ∧ gd.stepPercent = 1 then
      { bIsUnplanted := false, stepPercent := gd.stepPercent }
     else gd)
    (fun s i j => setGroupsPlantedStep_groupsData cfg env s i j)
    (List.range cfg.numGroups) (List.nodup_range _)]
  by_cases hg : g < cfg.numGroups
  · rw [if_pos (List.mem_range.mpr hg)]
    by_cases hc : (s.groupsData g).bIsUnplanted = true ∧ (s.groupsData g).stepPercent = 1
    · rw [if_pos hc, if_pos ⟨hg, hc⟩]
    · rw [if_neg hc, if_neg (fun hh => hc ⟨hh.2.1, hh.2.2⟩)]
  · rw [if_neg (fun hm => hg (List.mem_range.mp hm)), if_neg (fun hc => hg hc.1)]

/-! Arithmetic facts about the clamp to [0,1]. -/

theorem clamp01_nonneg (x : ℝ) : 0 ≤ clamp x 0 1 := le_max_left 0 (min 1 x)

theorem clamp01_le_one (x : ℝ) : clamp x 0 1 ≤ 1 := max_le zero_le_one (min_le_left 1 x)

theorem le_clamp01 (sp d : ℝ) (h1 : sp ≤ 1) (h0 : 0 ≤ d) : sp ≤ clamp (sp + d) 0 1 :=
  le_trans (le_min h1 (by linarith)) (le_max_right 0 (min 1 (sp + d)))

theorem clamp01_pos (x : ℝ) (hx : 0 < x) : 0 < clamp x 0 1 :=
  lt_of_lt_of_le (lt_min one_pos hx) (le_max_right 0 (min 1 x))

theorem clamp01_eq_one (x : ℝ) (hx : 1 ≤ x) : clamp x 0 1 = 1 := by
  unfold clamp
  rw [min_eq_left hx, max_eq_right zero_le_one]

/-! Per-case closed forms of the ground tick's effect on one group record. -/

theorem not_fires_of_unplanted (cfg : Config) (env : TickEnv) (motion : Motion) (s : SPWState)
    (g : ℕ) (hg : (s.groupsData g).bIsUnplanted = true) :
    ¬ (unplantFires cfg (setFeetTargetLocations cfg env motion s)
        ∧ g = s.currentGroupIndex) := by
  rintro ⟨hf, hgc⟩
  have hpl := hf.1
  rw [setFeetTargetLocations_groupsData, setFeetTargetLocations_currentGroupIndex, ← hgc, hg]
    at hpl
  simp at hpl

theorem ground_groupsData_planted_nofire (cfg : Config) (env : TickEnv) (motion : Motion)
    (s : SPWState) (g : ℕ) (hg : (s.groupsData g).bIsUnplanted = false)
    (hnf : ¬ (unplantFires cfg (setFeetTargetLocations cfg env motion s)
        ∧ g = s.currentGroupIndex)) :
    (evaluateWalkOnGround cfg env motion s).groupsData g = s.groupsData g := by
  unfold evaluateWalkOnGround
  rw [setGroupsPlanted_groupsData, computeFeet_groupsData, setCurrentGroupUnplanted_groupsData,
    setFeetTargetLocations_groupsData, setFeetTargetLocations_currentGroupIndex]
  rw [if_neg hnf]
  rw [if_neg (show ¬ (g < cfg.numGroups ∧ (s.groupsData g).bIsUnplanted = true) from
    fun hc => by simp [hg] at hc)]
  rw [if_neg (show ¬ (g < cfg.numGroups ∧ (s.groupsData g).bIsUnplanted = true
      ∧ (s.groupsData g).stepPercent = 1) from fun hc => by simp [hg] at hc)]

theorem ground_stepPercent_unplanted (cfg : Config) (env : TickEnv) (motion : Motion)
    (s : SPWState) (g : ℕ) (hg : (s.groupsData g).bIsUnplanted = true)
    (hlt : g < cfg.numGroups) :
    ((evaluateWalkOnGround cfg env motion s).groupsData g).stepPercent
      = clamp ((s.groupsData g).stepPercent
          + env.worldDeltaSeconds / motion.currentStepDuration) 0 1 := by
  unfold evaluateWalkOnGround
  rw [setGroupsPlanted_groupsData, computeFeet_groupsData, setCurrentGroupUnplanted_groupsData,
    setFeetTargetLocations_groupsData, setFeetTargetLocations_currentGroupIndex]
  rw [if_neg (not_fires_of_unplanted cfg env motion s g hg)]
  rw [if_pos (show g < cfg.numGroups ∧ (s.groupsData g).bIsUnplanted = true from ⟨hlt, hg⟩)]
  dsimp only
  by_cases hone : clamp ((s.groupsData g).stepPercent
      + env.worldDeltaSeconds / motion.currentStepDuration) 0 1 = 1
  · rw [if_pos (show g < cfg.numGroups ∧ (s.groupsData g).bIsUnplanted = true
      ∧ clamp ((s.groupsData g).stepPercent
          + env.worldDeltaSeconds / motion.currentStepDuration) 0 1 = 1 from ⟨hlt, hg, hone⟩)]
  · rw [if_neg (show ¬ (g < cfg.numGroups ∧ (s.groupsData g).bIsUnplanted = true
      ∧ clamp ((s.groupsData g).stepPercent
          + env.worldDeltaSeconds / motion.currentStepDuration) 0 1 = 1) from
      fun hc => hone hc.2.2)]

theorem ground_groupsData_unplanted_out (cfg : Config) (env : TickEnv) (motion : Motion)
    (s : SPWState) (g : ℕ) (hg : (s.groupsData g).bIsUnplanted = true)
    (hge : ¬ g < cfg.numGroups) :
    (evaluateWalkOnGround cfg env motion s).groupsData g = s.groupsData g := by
  unfold evaluateWalkOnGround
  rw [setGroupsPlanted_groupsData, computeFeet_groupsData, setCurrentGroupUnplanted_groupsData,
    setFeetTargetLocations_groupsData, setFeetTargetLocations_currentGroupIndex]
  rw [if_neg (not_fires_of_unplanted cfg env motion s g hg)]
  rw [if_neg (fun hc => hge hc.1), if_neg (fun hc => hge hc.1)]

theorem ground_stepPercent_fired (cfg : Config) (env : TickEnv) (motion : Motion) (s : SPWState)
    (hf : unplantFires cfg (setFeetTargetLocations cfg env motion s))
    (hcur : s.currentGroupIndex < cfg.numGroups) :
    ((setCurrentGroupUnplanted cfg env (setFeetTargetLocations cfg env motion s)).groupsData
        s.currentGroupIndex).stepPercent = 0
    ∧ ((evaluateWalkOnGround cfg env motion s).groupsData s.currentGroupIndex).stepPercent
        = clamp (0 + env.worldDeltaSeconds / motion.currentStepDuration) 0 1 := by
  constructor
  · rw [setCurrentGroupUnplanted_groupsData,
      if_pos (show unplantFires cfg (setFeetTargetLocations cfg env motion s)
        ∧ s.currentGroupIndex
            = (setFeetTargetLocations cfg env motion s).currentGroupIndex from
        ⟨hf, (setFeetTargetLocations_currentGroupIndex cfg env motion s).symm⟩)]
  · unfold evaluateWalkOnGround
    rw [setGroupsPlanted_groupsData, computeFeet_groupsData, setCurrentGroupUnplanted_groupsData,
      setFeetTargetLocations_groupsData, setFeetTargetLocations_currentGroupIndex]
    rw [if_pos (show unplantFires cfg (setFeetTargetLocations cfg env motion s)
      ∧ s.currentGroupIndex = s.currentGroupIndex from ⟨hf, rfl⟩)]
    rw [if_pos (show s.currentGroupIndex < cfg.numGroups
      ∧ ({ bIsUnplanted := true, stepPercent := 0 } : GroupData).bIsUnplanted = true
      from ⟨hcur, rfl⟩)]
    dsimp only
    by_cases hone : clamp (0 + env.worldDeltaSeconds / motion.currentStepDuration) 0 1 = 1
    · rw [if_pos (show s.currentGroupIndex < cfg.numGroups ∧ true = true
        ∧ clamp (0 + env.worldDeltaSeconds / motion.currentStepDuration) 0 1 = 1 from
        ⟨hcur, rfl, hone⟩)]
    · rw [if_neg (show ¬ (s.currentGroupIndex < cfg.numGroups ∧ true = true
        ∧ clamp (0 + env.worldDeltaSeconds / motion.currentStepDuration) 0 1 = 1) from
        fun hc => hone hc.2.2)]

/-- C1: on an on-ground tick, every group's step percent stays inside [0,1];
while a group is unplanted its step percent becomes exactly the old value
advanced by elapsed time over the current step duration, clamped to [0,1],
hence it never decreases; a positive step percent of an unplanted group never
returns to zero during the tick; a planted group's record is untouched unless
the PLANTED-to-UNPLANTED transition fires for it; and when that transition
fires, the step percent is reset to exactly 0 at the transition and then
advanced by the swing stage of the same tick. -/
theorem C1_stepPercent_invariant (cfg : Config) (env : TickEnv) (motion : Motion) (s : SPWState)
    (hdt : 0 ≤ env.worldDeltaSeconds) (hdur : 0 < motion.currentStepDuration)
    (hcur : s.currentGroupIndex < cfg.numGroups)
    (hbounds : ∀ g, 0 ≤ (s.groupsData g).stepPercent ∧ (s.groupsData g).stepPercent ≤ 1) :
    (∀ g, 0 ≤ ((evaluateWalkOnGround cfg env motion s).groupsData g).stepPercent
        ∧ ((evaluateWalkOnGround cfg env motion s).groupsData g).stepPercent ≤ 1)
    ∧ (∀ g, g < cfg.numGroups → (s.groupsData g).bIsUnplanted = true →
        ((evaluateWalkOnGround cfg env motion s).groupsData g).stepPercent
            = clamp ((s.groupsData g).stepPercent
                + env.worldDeltaSeconds / motion.currentStepDuration) 0 1
          ∧ (s.groupsData g).stepPercent
              ≤ ((evaluateWalkOnGround cfg env motion s).groupsData g).stepPercent)
    ∧ (∀ g, (s.groupsData g).bIsUnplanted = true → 0 < (s.groupsData g).stepPercent →
        0 < ((evaluateWalkOnGround cfg env motion s).groupsData g).stepPercent)
    ∧ (∀ g, (s.groupsData g).bIsUnplanted = false →
        ¬ (unplantFires cfg (setFeetTargetLocations cfg env motion s)
            ∧ g = s.currentGroupIndex) →
        (evaluateWalkOnGround cfg env motion s).groupsData g = s.groupsData g)
    ∧ (unplantFires cfg (setFeetTargetLocations cfg env motion s) →
        ((setCurrentGroupUnplanted cfg env
            (setFeetTargetLocations cfg env motion s)).groupsData
              s.currentGroupIndex).stepPercent = 0
        ∧ ((evaluateWalkOnGround cfg env motion s).groupsData
              s.currentGroupIndex).stepPercent
            = clamp (env.worldDeltaSeconds / motion.currentStepDuration) 0 1) := by
  have hδ : 0 ≤ env.worldDeltaSeconds / motion.currentStepDuration :=
    div_nonneg hdt (le_of_lt hdur)
  refine ⟨?_, ?_, ?_, ?_, ?_⟩
  · intro g
    by_cases hu : (s.groupsData g).bIsUnplanted = true
    · by_cases hlt : g < cfg.numGroups
      · rw [ground_stepPercent_unplanted cfg env motion s g hu hlt]
        exact ⟨clamp01_nonneg _, clamp01_le_one _⟩
      · rw [ground_groupsData_unplanted_out cfg env motion s g hu hlt]
        exact hbounds g
    · have hu' : (s.groupsData g).bIsUnplanted = false := Bool.eq_false_iff.mpr hu
      by_cases hfc : unplantFires cfg (setFeetTargetLocations cfg env motion s)
          ∧ g = s.currentGroupIndex
      · obtain ⟨hf, hgc⟩ := hfc
        subst hgc
        rw [(ground_stepPercent_fired cfg env motion s hf hcur).2]
        exact ⟨clamp01_nonneg _, clamp01_le_one _⟩
      · rw [ground_groupsData_planted_nofire cfg env motion s g hu' hfc]
        exact hbounds g
  · intro g hlt hu
    refine ⟨ground_stepPercent_unplanted cfg env motion s g hu hlt, ?_⟩
    rw [ground_stepPercent_unplanted cfg env motion s g hu hlt]
    exact le_clamp01 _ _ (hbounds g).2 hδ
  · intro g hu hpos
    by_cases hlt : g < cfg.numGroups
    · rw [ground_stepPercent_unplanted cfg env motion s g hu hlt]
      exact clamp01_pos _ (by linarith)
    · rw [ground_groupsData_unplanted_out cfg env motion s g hu hlt]
      exact hpos
  · intro g hpl hnf
    exact ground_groupsData_planted_nofire cfg env motion s g hpl hnf
  · intro hf
    have h2 := ground_stepPercent_fired cfg env motion s hf hcur
    exact ⟨h2.1, by rw [h2.2, zero_add]⟩

/-- Witness for C1 at the resting one-group rig. -/
theorem C1_stepPercent_invariant_witness :
    (0 ≤ envW.worldDeltaSeconds ∧ 0 < motionW.currentStepDuration
        ∧ sW.currentGroupIndex < cfgW.numGroups
        ∧ ∀ g, 0 ≤ (sW.groupsData g).stepPercent ∧ (sW.groupsData g).stepPercent ≤ 1)
    ∧ (∀ g, 0 ≤ ((evaluateWalkOnGround cfgW envW motionW sW).groupsData g).stepPercent
        ∧ ((evaluateWalkOnGround cfgW envW motionW sW).groupsData g).stepPercent ≤ 1) :=
  ⟨⟨by norm_num [envW], by norm_num [motionW], by norm_num [sW, cfgW],
      fun g => by norm_num [sW]⟩,
    (C1_stepPercent_invariant cfgW envW motionW sW (by norm_num [envW]) (by norm_num [motionW])
      (by norm_num [sW, cfgW]) (fun g => by norm_num [sW])).1⟩

/-- C2: for a planted current group, the PLANTED-to-UNPLANTED transition
fires exactly when some leg of the group has drifted at least
MinDistanceToUnplant from its target and the cyclically preceding group is
either planted or has step percent at least StepSequencePercent; with a
sequence percent of 1, a group cannot unplant while its predecessor is
unplanted with step percent below 1. -/
theorem C2_unplant_transition_iff (cfg : Config) (env : TickEnv) (s : SPWState)
    (hpl : (s.groupsData s.currentGroupIndex).bIsUnplanted = false) :
    ((((setCurrentGroupUnplanted cfg env s).groupsData s.currentGroupIndex).bIsUnplanted = true)
      ↔ ((∃ i ∈ cfg.legGroups s.currentGroupIndex,
            cfg.minDistanceToUnplant
              ≤ vdist (s.legsData i).footLocation (s.legsData i).footTarget)
        ∧ ((s.groupsData (prevGroupIndex cfg s.currentGroupIndex)).bIsUnplanted = true →
            cfg.stepSequencePercent
              ≤ (s.groupsData (prevGroupIndex cfg s.currentGroupIndex)).stepPercent)))
    ∧ (cfg.stepSequencePercent = 1 →
        (s.groupsData (prevGroupIndex cfg s.currentGroupIndex)).bIsUnplanted = true →
        (s.groupsData (prevGroupIndex cfg s.currentGroupIndex)).stepPercent < 1 →
        ((setCurrentGroupUnplanted cfg env s).groupsData s.currentGroupIndex).bIsUnplanted
          = false) := by
  constructor
  · rw [setCurrentGroupUnplanted_groupsData]
    constructor
    · intro h
      by_cases hc : unplantFires cfg s ∧ s.currentGroupIndex = s.currentGroupIndex
      · obtain ⟨⟨_, hex, hseq⟩, _⟩ := hc
        exact ⟨hex, fun hup => le_of_not_lt (fun hlt => hseq ⟨hup, hlt⟩)⟩
      · rw [if_neg hc, hpl] at h
        simp at h
    · rintro ⟨hex, himp⟩
      rw [if_pos ⟨⟨hpl, hex,
        fun hc => absurd (himp hc.1) (not_le.mpr hc.2)⟩, rfl⟩]
  · intro hseq1 hup hlt
    rw [setCurrentGroupUnplanted_groupsData, if_neg]
    · exact hpl
    rintro ⟨⟨_, _, hno⟩, _⟩
    exact hno ⟨hup, by rw [hseq1]; exact hlt⟩

/-- Witness for C2: one drifted leg, planted groups, the transition fires. -/
theorem C2_unplant_transition_iff_witness :
    ((sDrift.groupsData sDrift.currentGroupIndex).bIsUnplanted = false)
    ∧ (((setCurrentGroupUnplanted cfgW envW sDrift).groupsData
          sDrift.currentGroupIndex).bIsUnplanted = true) := by
  have hpl : (sDrift.groupsData sDrift.currentGroupIndex).bIsUnplanted = false := by
    norm_num [sDrift]
  refine ⟨hpl, ((C2_unplant_transition_iff cfgW envW sDrift hpl).1).mpr ⟨?_, ?_⟩⟩
  · refine ⟨0, by norm_num [sDrift, cfgW], ?_⟩
    have hd : vdist (0 : Vec3) ⟨6, 0, 0⟩ = 6 := by
      unfold vdist vsize
      rw [show ((0:Vec3) - ⟨6, 0, 0⟩).x ^ 2 + ((0:Vec3) - ⟨6, 0, 0⟩).y ^ 2
          + ((0:Vec3) - ⟨6, 0, 0⟩).z ^ 2 = 6 ^ 2 by norm_num]
      exact Real.sqrt_sq (by norm_num)
    have hfoot : (sDrift.legsData 0).footLocation = (0 : Vec3) := by norm_num [sDrift, legW]
    have htgt : (sDrift.legsData 0).footTarget = (⟨6, 0, 0⟩ : Vec3) := by norm_num [sDrift, legW]
    rw [hfoot, htgt, hd]
    norm_num [cfgW]
  · intro h
    exfalso
    norm_num [sDrift, prevGroupIndex, cfgW] at h

/-! The plant loop of SetGroupsPlanted, leg by leg. -/

theorem foldl_plantLegStep_legsData (env : TickEnv) (l : List ℕ) (hnd : l.Nodup) (s : SPWState)
    (j : ℕ) :
    (l.foldl (plantLegStep env) s).legsData j
      = if j ∈ l then setSupportComponentData env (s.legsData j) ((s.legsData j).footLocation)
        else s.legsData j :=
  foldl_legsData_eval (plantLegStep env)
    (fun _ leg => setSupportComponentData env leg leg.footLocation)
    (fun s i j => plantLegStep_legsData env s i j) l hnd s j

theorem setGroupsPlanted_fixed_aux (cfg : Config) (env : TickEnv) (g i : ℕ)
    (hdisj : ∀ a, a ≠ g → i ∉ cfg.legGroups a) :
    ∀ (l : List ℕ) (s : SPWState), (s.groupsData g).bIsUnplanted = false →
      ((l.foldl (setGroupsPlantedStep cfg env) s).legsData i = s.legsData i
        ∧ ((l.foldl (setGroupsPlantedStep cfg env) s).groupsData g).bIsUnplanted = false) := by
  intro l
  induction l with
  | nil => intro s hs; exact ⟨rfl, hs⟩
  | cons a t ih =>
    intro s hs
    rw [List.foldl_cons]
    have hstep : (setGroupsPlantedStep cfg env s a).legsData i = s.legsData i
        ∧ ((setGroupsPlantedStep cfg env s a).groupsData g).bIsUnplanted = false := by
      by_cases hag : a = g
      · subst hag
        unfold setGroupsPlantedStep
        rw [if_neg (fun hc => by rw [hs] at hc; simp at hc)]
        exact ⟨rfl, hs⟩
      · constructor
        · unfold setGroupsPlantedStep
          split
          · rw [show (updateGroup ((cfg.legGroups a).foldl (plantLegStep env) s) a
                { bIsUnplanted := false,
                  stepPercent := (((cfg.legGroups a).foldl (plantLegStep env) s).groupsData
                    a).stepPercent }).legsData
                = ((cfg.legGroups a).foldl (plantLegStep env) s).legsData from rfl]
            exact foldl_legsData_not_mem _
              (fun s i' j hji => plantLegStep_legsData_ne env s i' j hji) _ _ _ (hdisj a hag)
          · rfl
        · rw [setGroupsPlantedStep_groupsData, if_neg (fun h => hag h.symm)]
          exact hs
    obtain ⟨ihl, ihg⟩ := ih (setGroupsPlantedStep cfg env s a) hstep.2
    exact ⟨hstep.1 ▸ ihl, ihg⟩

theorem setGroupsPlanted_capture_aux (cfg : Config) (env : TickEnv) (g i : ℕ)
    (hi : i ∈ cfg.legGroups g) (hnd : (cfg.legGroups g).Nodup)
    (hdisj : ∀ a, a ≠ g → i ∉ cfg.legGroups a) :
    ∀ (l : List ℕ) (s : SPWState), g ∈ l →
      (s.groupsData g).bIsUnplanted = true → (s.groupsData g).stepPercent = 1 →
      (l.foldl (setGroupsPlantedStep cfg env) s).legsData i
        = setSupportComponentData env (s.legsData i) ((s.legsData i).footLocation) := by
  intro l
  induction l with
  | nil => intro s hg; cases hg
  | cons a t ih =>
    intro s hgmem hu h1
    rw [List.foldl_cons]
    by_cases hag : a = g
    · subst hag
      have hfire : (s.groupsData a).bIsUnplanted = true ∧ (s.groupsData a).stepPercent = 1 :=
        ⟨hu, h1⟩
      have hlegs : (setGroupsPlantedStep cfg env s a).legsData i
          = setSupportComponentData env (s.legsData i) ((s.legsData i).footLocation) := by
        unfold setGroupsPlantedStep
        rw [if_pos hfire, updateGroup_legsData, foldl_plantLegStep_legsData env _ hnd,
          if_pos hi]
      have hflag : ((setGroupsPlantedStep cfg env s a).groupsData a).bIsUnplanted = false := by
        rw [setGroupsPlantedStep_groupsData, if_pos rfl, if_pos hfire]
      have hrest := setGroupsPlanted_fixed_aux cfg env a i hdisj t
        (setGroupsPlantedStep cfg env s a) hflag
      rw [hrest.1, hlegs]
    · have hstep_flag : (setGroupsPlantedStep cfg env s a).groupsData g = s.groupsData g := by
        rw [setGroupsPlantedStep_groupsData, if_neg (fun h => hag h.symm)]
      have hstep_legs : (setGroupsPlantedStep cfg env s a).legsData i = s.legsData i := by
        unfold setGroupsPlantedStep
        split
        · rw [show (updateGroup ((cfg.legGroups a).foldl (plantLegStep env) s) a
              { bIsUnplanted := false,
                stepPercent := (((cfg.legGroups a).foldl (plantLegStep env) s).groupsData
                  a).stepPercent }).legsData
              = ((cfg.legGroups a).foldl (plantLegStep env) s).legsData from rfl]
          exact foldl_legsData_not_mem _
            (fun s i' j hji => plantLegStep_legsData_ne env s i' j hji) _ _ _ (hdisj a hag)
        · rfl
      have hmem : g ∈ t := by
        rcases List.mem_cons.mp hgmem with he | hm
        · exact absurd he.symm hag
        · exact hm
      rw [ih (setGroupsPlantedStep cfg env s a) hmem
        (by rw [hstep_flag]; exact hu) (by rw [hstep_flag]; exact h1), hstep_legs]

/-- C3: for any group (the check runs over all groups, not only the current
one), the UNPLANTED-to-PLANTED transition fires exactly when the group's step
percent equals 1 -- an exact comparison, reachable because the swing advance
saturates the clamp at 1 -- and on firing the group is marked planted and the
support references of its legs are recaptured at the legs' current foot
locations. -/
theorem C3_plant_transition (cfg : Config) (env : TickEnv) (motion : Motion) (s : SPWState)
    (g : ℕ) (hg : g < cfg.numGroups) (hu : (s.groupsData g).bIsUnplanted = true)
    (hnd : (cfg.legGroups g).Nodup)
    (hdisj : ∀ a b, a ≠ b → ∀ i, i ∈ cfg.legGroups a → i ∉ cfg.legGroups b) :
    (((setGroupsPlanted cfg env s).groupsData g).bIsUnplanted = false
      ↔ (s.groupsData g).stepPercent = 1)
    ∧ ((s.groupsData g).stepPercent = 1 → ∀ i ∈ cfg.legGroups g,
        (setGroupsPlanted cfg env s).legsData i
          = setSupportComponentData env (s.legsData i) ((s.legsData i).footLocation))
    ∧ (1 ≤ (s.groupsData g).stepPercent + env.worldDeltaSeconds / motion.currentStepDuration →
        ((computeFeet cfg env motion false s).groupsData g).stepPercent = 1) := by
  refine ⟨?_, ?_, ?_⟩
  · rw [setGroupsPlanted_groupsData]
    constructor
    · intro h
      by_cases hc : g < cfg.numGroups ∧ (s.groupsData g).bIsUnplanted = true
          ∧ (s.groupsData g).stepPercent = 1
      · exact hc.2.2
      · rw [if_neg hc, hu] at h
        simp at h
    · intro h1
      rw [if_pos ⟨hg, hu, h1⟩]
  · intro h1 i hi
    exact setGroupsPlanted_capture_aux cfg env g i hi hnd
      (fun a ha => hdisj g a (fun he => ha he.symm) i hi)
      (List.range cfg.numGroups) s (List.mem_range.mpr hg) hu h1
  · intro hsum
    rw [computeFeet_groupsData, if_pos ⟨hg, hu⟩]
    exact clamp01_eq_one _ hsum

/-- Witness for C3 at a one-group rig whose group is unplanted with step
percent exactly 1. -/
theorem C3_plant_transition_witness :
    ((0 : ℕ) < cfgW.numGroups ∧ (sPlant.groupsData 0).bIsUnplanted = true
      ∧ (cfgW.legGroups 0).Nodup
      ∧ (∀ a b, a ≠ b → ∀ i, i ∈ cfgW.legGroups a → i ∉ cfgW.legGroups b))
    ∧ (((setGroupsPlanted cfgW envW sPlant).groupsData 0).bIsUnplanted = false
        ↔ (sPlant.groupsData 0).stepPercent = 1) := by
  have h1 : (0 : ℕ) < cfgW.numGroups := by norm_num [cfgW]
  have h2 : (sPlant.groupsData 0).bIsUnplanted = true := by norm_num [sPlant]
  have h3 : (cfgW.legGroups 0).Nodup := by simp [cfgW]
  have h4 : ∀ a b, a ≠ b → ∀ i, i ∈ cfgW.legGroups a → i ∉ cfgW.legGroups b := by
    intro a b hab i hia
    by_cases ha : a = 0 <;> by_cases hb : b = 0 <;> simp_all [cfgW]
  exact ⟨⟨h1, h2, h3, h4⟩,
    (C3_plant_transition cfgW envW motionW sPlant 0 h1 h2 h3 h4).1⟩

/-- C4: the current step duration equals the configured minimum whenever the
motion denominator speed + |yawDelta| is at most the minimum-motion threshold
of 5, regardless of the computed step length, and equals step length divided
by that denominator whenever the denominator exceeds the threshold. -/
theorem C4_step_duration_threshold (cfg : Config) (env : TickEnv) (prev : MotionPrev) :
    ((updatePawnVariables cfg env prev).speed
        + |(updatePawnVariables cfg env prev).yawDelta| ≤ 5 →
      (updatePawnVariables cfg env prev).currentStepDuration = cfg.minStepDuration)
    ∧ (5 < (updatePawnVariables cfg env prev).speed
          + |(updatePawnVariables cfg env prev).yawDelta| →
      (updatePawnVariables cfg env prev).currentStepDuration
        = (updatePawnVariables cfg env prev).currentStepLength
          / ((updatePawnVariables cfg env prev).speed
              + |(updatePawnVariables cfg env prev).yawDelta|)) := by
  constructor <;> intro h
  · simp only [updatePawnVariables] at h ⊢
    rw [if_neg (not_lt.mpr h)]
  · simp only [updatePawnVariables] at h ⊢
    rw [if_pos h]

/-- Witness for C4 at a resting pawn: the denominator is zero, so the
duration is the configured minimum. -/
theorem C4_step_duration_threshold_witness :
    ((updatePawnVariables cfgW envW prevW).speed
        + |(updatePawnVariables cfgW envW prevW).yawDelta| ≤ 5)
    ∧ (updatePawnVariables cfgW envW prevW).currentStepDuration = cfgW.minStepDuration := by
  have hle : (updatePawnVariables cfgW envW prevW).speed
      + |(updatePawnVariables cfgW envW prevW).yawDelta| ≤ 5 := by
    simp only [updatePawnVariables, envW, prevW]
    norm_num [vsize, normalizeAxis, clampAxis, SPEED_THRESHOLD_MIN]
  exact ⟨hle, (C4_step_duration_threshold cfgW envW prevW).1 hle⟩

/-- C5: whenever the advanced solver either (a) keeps a line hit within the
rest-length-times-multiplier distance threshold or (b) triggers the
volumetric search but accepts no candidate, its whole per-leg result agrees
with what the basic solver produces for the identical probe segment (hit
point plus vertical offset on a hit, resting-position fallback on a miss). -/
theorem C5_advanced_matches_basic (cfg : Config) (env : TickEnv) (motion : Motion)
    (groups : ℕ → GroupData) (leg : LegData) (legIndex : ℕ)
    (hcase :
      (∃ h, env.lineHit legIndex = some h
        ∧ vdist (probeAnchor cfg env motion legIndex) h.impactPoint
            ≤ leg.length * cfg.distanceCheckMultiplier)
      ∨ ((env.lineHit legIndex = none
          ∨ leg.length * cfg.distanceCheckMultiplier
              < vdist (probeAnchor cfg env motion legIndex)
                  ((env.lineHit legIndex).getD defaultHit).impactPoint)
        ∧ (selectFoothold env.actorUp (probeAnchor cfg env motion legIndex)
              (vdist (probeAnchor cfg env motion legIndex)
                ((env.lineHit legIndex).getD defaultHit).impactPoint)
              ((cfg.traceLength + cfg.traceZOffset) * 2)
              (env.footholdHits legIndex)).bBlockingHit = false)) :
    setFootTargetLocation { cfg with solverType := SolverType.advanced } env motion groups leg
        legIndex
      = setFootTargetLocation { cfg with solverType := SolverType.basic } env motion groups leg
          legIndex := by
  have hpa : probeAnchor { cfg with solverType := SolverType.advanced } env motion legIndex
      = probeAnchor cfg env motion legIndex := rfl
  have hres : resolveHit { cfg with solverType := SolverType.advanced } env motion leg legIndex
      = resolveHit { cfg with solverType := SolverType.basic } env motion leg legIndex := by
    rcases hcase with ⟨h, hsome, hle⟩ | ⟨htrig, hbest⟩
    · unfold resolveHit
      dsimp only
      rw [hpa, hsome]
      simp only [Option.getD_some]
      have hnc : ¬ ((some h : Option HitRes) = none
          ∨ leg.length * cfg.distanceCheckMultiplier
              < vdist (probeAnchor cfg env motion legIndex) h.impactPoint) := by
        rintro (hnone | hfar)
        · cases hnone
        · exact absurd hle (not_le.mpr hfar)
      rw [if_neg hnc]
    · unfold resolveHit
      dsimp only
      rw [hpa]
      rw [if_pos htrig]
      rw [if_neg (show ¬ ((selectFoothold env.actorUp (probeAnchor cfg env motion legIndex)
          (vdist (probeAnchor cfg env motion legIndex)
            ((env.lineHit legIndex).getD defaultHit).impactPoint)
          ((cfg.traceLength + cfg.traceZOffset) * 2)
          (env.footholdHits legIndex)).bBlockingHit = true) from by
        rw [hbest]; exact Bool.false_ne_true)]
  unfold setFootTargetLocation
  rw [hres]
  rfl

/-- Witness for C5 in case (a): a line hit 10 units below the anchor, within
the threshold of 24. -/
theorem C5_advanced_matches_basic_witness :
    (∃ h, envHit.lineHit 0 = some h
      ∧ vdist (probeAnchor cfgW envHit motionW 0) h.impactPoint
          ≤ legW.length * cfgW.distanceCheckMultiplier)
    ∧ setFootTargetLocation { cfgW with solverType := SolverType.advanced } envHit motionW
          groupsPlantedW legW 0
        = setFootTargetLocation { cfgW with solverType := SolverType.basic } envHit motionW
            groupsPlantedW legW 0 := by
  have hanchor : probeAnchor cfgW envHit motionW 0 = (0 : Vec3) := by
    apply Vec3.ext <;> norm_num [probeAnchor, cfgW, envHit, envW, motionW]
  have hd : vdist (0 : Vec3) (⟨0, 0, -10⟩ : Vec3) = 10 := by
    unfold vdist vsize
    rw [show ((0:Vec3) - ⟨0, 0, -10⟩).x ^ 2 + ((0:Vec3) - ⟨0, 0, -10⟩).y ^ 2
        + ((0:Vec3) - ⟨0, 0, -10⟩).z ^ 2 = 10 ^ 2 by norm_num]
    exact Real.sqrt_sq (by norm_num)
  have hcase : ∃ h, envHit.lineHit 0 = some h
      ∧ vdist (probeAnchor cfgW envHit motionW 0) h.impactPoint
          ≤ legW.length * cfgW.distanceCheckMultiplier := by
    refine ⟨hitA, by simp [envHit, envW], ?_⟩
    rw [hanchor, show hitA.impactPoint = (⟨0, 0, -10⟩ : Vec3) from rfl, hd]
    norm_num [legW, cfgW]
  exact ⟨hcase, C5_advanced_matches_basic cfgW envHit motionW groupsPlantedW legW 0
    (Or.inl hcase)⟩

/-- C6: when the placement probe resolves no hit, the leg's IK flag is
cleared, its target is the authored resting position transformed into world
space by the actor transform, and the rest of the per-leg state is still
updated on that tick (rotation interpolated toward neutral, last hit saved),
so a miss never stalls the per-leg update. -/
theorem C6_probe_miss_resting (cfg : Config) (env : TickEnv) (motion : Motion)
    (groups : ℕ → GroupData) (leg : LegData) (legIndex : ℕ)
    (hmiss : (resolveHit cfg env motion leg legIndex).1 = false) :
    ((setFootTargetLocation cfg env motion groups leg legIndex).bEnableIK = false)
    ∧ ((setFootTargetLocation cfg env motion groups leg legIndex).footTarget
        = env.actorTransform leg.tipBoneOriginalRelLocation)
    ∧ (setFootTargetLocation cfg env motion groups leg legIndex
        = { leg with
            footTarget := env.actorTransform leg.tipBoneOriginalRelLocation
            footTargetRotation := env.rinterpTo leg.footTargetRotation zeroRot
              env.worldDeltaSeconds cfg.feetTipBonesRotationInterpSpeed
            bEnableIK := false
            lastHit := (resolveHit cfg env motion leg legIndex).2 }) := by
  unfold setFootTargetLocation applyFootResult
  rw [hmiss]
  exact ⟨rfl, rfl, rfl⟩

/-- Witness for C6: the basic solver with a missed line trace. -/
theorem C6_probe_miss_resting_witness :
    ((resolveHit cfgW envW motionW legW 0).1 = false)
    ∧ ((setFootTargetLocation cfgW envW motionW groupsPlantedW legW 0).bEnableIK = false) := by
  have hmiss : (resolveHit cfgW envW motionW legW 0).1 = false := by
    simp [resolveHit, cfgW, envW]
  exact ⟨hmiss,
    (C6_probe_miss_resting cfgW envW motionW groupsPlantedW legW 0 hmiss).1⟩

/-- C7 as frozen is false on the code: past the freeze threshold a probe
MISS does not add the support delta to the stored target; it overwrites the
target with the resting position.  At the concrete input below the leg is
unplanted at step percent 0.6 with threshold 0.5, the probe misses, and the
new target (the resting position, the origin) differs from the old target
plus the support delta. -/
theorem C7_freeze_counterexample :
    ((groups7 leg7.groupIndex).bIsUnplanted = true)
    ∧ (cfgW.fixFeetTargetsAfterPercent ≤ (groups7 leg7.groupIndex).stepPercent)
    ∧ ((setFootTargetLocation cfgW envW motionW groups7 leg7 0).footTarget
        ≠ leg7.footTarget + leg7.supportCompDelta) := by
  refine ⟨by norm_num [groups7, leg7, legW], by norm_num [cfgW, groups7, leg7, legW], ?_⟩
  have hft : (setFootTargetLocation cfgW envW motionW groups7 leg7 0).footTarget
      = (0 : Vec3) := by
    simp [setFootTargetLocation, applyFootResult, resolveHit, cfgW, envW, leg7, legW]
  rw [hft]
  intro hcontra
  have hx := congrArg Vec3.x hcontra
  norm_num [leg7, legW] at hx

/-- C7 amended: for an unplanted leg at or past the freeze threshold whose
probe HITS, the tick does not overwrite the foot target with the probe
result; the target changes only by the addition of the leg's support-surface
delta. -/
theorem C7_freeze_on_hit (cfg : Config) (env : TickEnv) (motion : Motion)
    (groups : ℕ → GroupData) (leg : LegData) (legIndex : ℕ)
    (hu : (groups leg.groupIndex).bIsUnplanted = true)
    (hsp : cfg.fixFeetTargetsAfterPercent ≤ (groups leg.groupIndex).stepPercent)
    (hhit : (resolveHit cfg env motion leg legIndex).1 = true) :
    (setFootTargetLocation cfg env motion groups leg legIndex).footTarget
      = leg.footTarget + leg.supportCompDelta := by
  unfold setFootTargetLocation applyFootResult
  rw [hhit, hu]
  simp [not_lt.mpr hsp]

/-- Witness for the amended C7: same late-swing leg, but with a line hit. -/
theorem C7_freeze_on_hit_witness :
    ((groups7 leg7.groupIndex).bIsUnplanted = true
      ∧ cfgW.fixFeetTargetsAfterPercent ≤ (groups7 leg7.groupIndex).stepPercent
      ∧ (resolveHit cfgW envHit motionW leg7 0).1 = true)
    ∧ (setFootTargetLocation cfgW envHit motionW groups7 leg7 0).footTarget
        = leg7.footTarget + leg7.supportCompDelta := by
  have h1 : (groups7 leg7.groupIndex).bIsUnplanted = true := by
    norm_num [groups7, leg7, legW]
  have h2 : cfgW.fixFeetTargetsAfterPercent ≤ (groups7 leg7.groupIndex).stepPercent := by
    norm_num [cfgW, groups7, leg7, legW]
  have h3 : (resolveHit cfgW envHit motionW leg7 0).1 = true := by
    simp [resolveHit, cfgW, envHit, envW]
  exact ⟨⟨h1, h2, h3⟩, C7_freeze_on_hit cfgW envHit motionW groups7 leg7 0 h1 h2 h3⟩

/-! Facts supporting the reset idempotence claim. -/

theorem setFootTargetLocation_tip (cfg : Config) (env : TickEnv) (motion : Motion)
    (groups : ℕ → GroupData) (leg : LegData) (legIndex : ℕ) :
    (setFootTargetLocation cfg env motion groups leg legIndex).tipBoneOriginalRelLocation
      = leg.tipBoneOriginalRelLocation := rfl

theorem setFeetTargetLocations_tip (cfg : Config) (env : TickEnv) (motion : Motion)
    (s : SPWState) (i : ℕ) :
    ((setFeetTargetLocations cfg env motion s).legsData i).tipBoneOriginalRelLocation
      = (s.legsData i).tipBoneOriginalRelLocation := by
  unfold setFeetTargetLocations
  dsimp only
  by_cases hi : i < cfg.numLegs
  · rw [if_pos hi]
    exact setFootTargetLocation_tip cfg env motion s.groupsData (s.legsData i) i
  · rw [if_neg hi]

theorem reset_legsData_tip (cfg : Config) (env : TickEnv) (motion : Motion) (s : SPWState)
    (i : ℕ) :
    ((resetFeetTargetsAndLocations cfg env motion s).legsData i).tipBoneOriginalRelLocation
      = (s.legsData i).tipBoneOriginalRelLocation := by
  unfold resetFeetTargetsAndLocations
  dsimp only
  by_cases hi : i < cfg.numLegs
  · rw [if_pos hi]
    show ((setFeetTargetLocations cfg env motion s).legsData i).tipBoneOriginalRelLocation = _
    rw [setFeetTargetLocations_tip]
  · rw [if_neg hi]
    show ((setFeetTargetLocations cfg env motion s).legsData i).tipBoneOriginalRelLocation = _
    rw [setFeetTargetLocations_tip]

theorem reset_legsData_footLocation (cfg : Config) (env : TickEnv) (motion : Motion)
    (s : SPWState) (i : ℕ) :
    ((resetFeetTargetsAndLocations cfg env motion s).legsData i).footLocation
      = if i < cfg.numLegs then
          env.actorTransform ((s.legsData i).tipBoneOriginalRelLocation)
        else ((setFeetTargetLocations cfg env motion s).legsData i).footLocation := by
  unfold resetFeetTargetsAndLocations
  dsimp only
  by_cases hi : i < cfg.numLegs
  · rw [if_pos hi, if_pos hi]
    show env.actorTransform
        (((setFeetTargetLocations cfg env motion s).legsData i).tipBoneOriginalRelLocation) = _
    rw [setFeetTargetLocations_tip]
  · rw [if_neg hi, if_neg hi]

theorem reset_legsData_footUnplantLocation (cfg : Config) (env : TickEnv) (motion : Motion)
    (s : SPWState) (i : ℕ) :
    ((resetFeetTargetsAndLocations cfg env motion s).legsData i).footUnplantLocation
      = if i < cfg.numLegs then
          env.actorTransform ((s.legsData i).tipBoneOriginalRelLocation)
        else ((setFeetTargetLocations cfg env motion s).legsData i).footUnplantLocation := by
  unfold resetFeetTargetsAndLocations
  dsimp only
  by_cases hi : i < cfg.numLegs
  · rw [if_pos hi, if_pos hi]
    show env.actorTransform
        (((setFeetTargetLocations cfg env motion s).legsData i).tipBoneOriginalRelLocation) = _
    rw [setFeetTargetLocations_tip]
  · rw [if_neg hi, if_neg hi]

theorem setFeetTargetLocations_footLocation (cfg : Config) (env : TickEnv) (motion : Motion)
    (s : SPWState) (i : ℕ) :
    ((setFeetTargetLocations cfg env motion s).legsData i).footLocation
      = (s.legsData i).footLocation := by
  unfold setFeetTargetLocations
  dsimp only
  by_cases hi : i < cfg.numLegs
  · rw [if_pos hi]
    rfl
  · rw [if_neg hi]

theorem setFeetTargetLocations_footUnplantLocation (cfg : Config) (env : TickEnv)
    (motion : Motion) (s : SPWState) (i : ℕ) :
    ((setFeetTargetLocations cfg env motion s).legsData i).footUnplantLocation
      = (s.legsData i).footUnplantLocation := by
  unfold setFeetTargetLocations
  dsimp only
  by_cases hi : i < cfg.numLegs
  · rw [if_pos hi]
    rfl
  · rw [if_neg hi]

theorem reset_groupsData (cfg : Config) (env : TickEnv) (motion : Motion) (s : SPWState)
    (g : ℕ) :
    (resetFeetTargetsAndLocations cfg env motion s).groupsData g
      = if g < cfg.numGroups then { bIsUnplanted := false, stepPercent := 0 }
        else s.groupsData g := rfl

/-- C9: applying the reset operation twice in succession against the same
tick environment (no elapsed time, unchanged world) yields the same foot
location and unplant location for every leg and the same group records and
current-group pointer as applying it once. -/
theorem C9_reset_idempotent (cfg : Config) (env : TickEnv) (motion : Motion) (s : SPWState) :
    (∀ i, ((resetFeetTargetsAndLocations cfg env motion
            (resetFeetTargetsAndLocations cfg env motion s)).legsData i).footLocation
        = ((resetFeetTargetsAndLocations cfg env motion s).legsData i).footLocation)
    ∧ (∀ i, ((resetFeetTargetsAndLocations cfg env motion
            (resetFeetTargetsAndLocations cfg env motion s)).legsData i).footUnplantLocation
        = ((resetFeetTargetsAndLocations cfg env motion s).legsData i).footUnplantLocation)
    ∧ (∀ g, (resetFeetTargetsAndLocations cfg env motion
            (resetFeetTargetsAndLocations cfg env motion s)).groupsData g
        = (resetFeetTargetsAndLocations cfg env motion s).groupsData g)
    ∧ (resetFeetTargetsAndLocations cfg env motion
          (resetFeetTargetsAndLocations cfg env motion s)).currentGroupIndex
        = (resetFeetTargetsAndLocations cfg env motion s).currentGroupIndex := by
  refine ⟨?_, ?_, ?_, rfl⟩
  · intro i
    rw [reset_legsData_footLocation, reset_legsData_footLocation]
    by_cases hi : i < cfg.numLegs
    · rw [if_pos hi, if_pos hi, reset_legsData_tip]
    · rw [if_neg hi, if_neg hi, setFeetTargetLocations_footLocation,
        setFeetTargetLocations_footLocation, reset_legsData_footLocation, if_neg hi,
        setFeetTargetLocations_footLocation]
  · intro i
    rw [reset_legsData_footUnplantLocation, reset_legsData_footUnplantLocation]
    by_cases hi : i < cfg.numLegs
    · rw [if_pos hi, if_pos hi, reset_legsData_tip]
    · rw [if_neg hi, if_neg hi, setFeetTargetLocations_footUnplantLocation,
        setFeetTargetLocations_footUnplantLocation, reset_legsData_footUnplantLocation,
        if_neg hi, setFeetTargetLocations_footUnplantLocation]
  · intro g
    rw [reset_groupsData, reset_groupsData]
    by_cases hg : g < cfg.numGroups
    · rw [if_pos hg, if_pos hg]
    · rw [if_neg hg, if_neg hg]

/-! Facts supporting the zero-vector foothold-filter claim. -/

theorem defaultHit_impactPoint : defaultHit.impactPoint = (0 : Vec3) := rfl

theorem vdist_nonneg (a b : Vec3) : 0 ≤ vdist a b := Real.sqrt_nonneg _

theorem selectFoothold_reject (up anchor : Vec3) (zd : ℝ) :
    ∀ (l : List HitRes), (∀ h ∈ l, ¬ vdist anchor h.impactPoint < zd) →
      ∀ acc : HitRes × ℝ, l.foldl (footholdStep up anchor zd) acc = acc := by
  intro l
  induction l with
  | nil => intro _ acc; rfl
  | cons a t ih =>
    intro hall acc
    rw [List.foldl_cons,
      show footholdStep up anchor zd acc a = acc from by
        unfold footholdStep
        rw [if_neg (hall a (List.mem_cons_self a t))]]
    exact ih (fun h hm => hall h (List.mem_cons_of_mem a hm)) acc

/-- C10: in advanced mode with a missed ray, the volumetric search filters
every candidate by requiring its distance from the anchor to be strictly
below the anchor's distance to the missed ray's default-initialized impact
point, the zero vector; whenever every candidate is at least that far (for
example with the anchor near the world origin), every candidate is rejected
and the leg falls through to the no-hit resting-position path although the
volume probe returned footholds. -/
theorem C10_foothold_filter_zero_vector (cfg : Config) (env : TickEnv) (motion : Motion)
    (groups : ℕ → GroupData) (leg : LegData) (legIndex : ℕ)
    (hadv : cfg.solverType = SolverType.advanced)
    (hmiss : env.lineHit legIndex = none)
    (hfar : ∀ h ∈ env.footholdHits legIndex,
        ¬ vdist (probeAnchor cfg env motion legIndex) h.impactPoint
            < vdist (probeAnchor cfg env motion legIndex) (0 : Vec3)) :
    ((resolveHit cfg env motion leg legIndex).1 = false)
    ∧ ((setFootTargetLocation cfg env motion groups leg legIndex).bEnableIK = false)
    ∧ ((setFootTargetLocation cfg env motion groups leg legIndex).footTarget
        = env.actorTransform leg.tipBoneOriginalRelLocation) := by
  have hres1 : (resolveHit cfg env motion leg legIndex).1 = false := by
    unfold resolveHit
    rw [hadv]
    dsimp only
    rw [hmiss]
    simp only [Option.getD_none, defaultHit_impactPoint]
    rw [if_pos (show True ∨ leg.length * cfg.distanceCheckMultiplier
        < vdist (probeAnchor cfg env motion legIndex) 0 from Or.inl trivial)]
    rw [show selectFoothold env.actorUp (probeAnchor cfg env motion legIndex)
        (vdist (probeAnchor cfg env motion legIndex) 0)
        ((cfg.traceLength + cfg.traceZOffset) * 2) (env.footholdHits legIndex)
        = defaultHit from by
      unfold selectFoothold
      rw [selectFoothold_reject env.actorUp (probeAnchor cfg env motion legIndex) _ _ hfar _]]
    rw [if_neg (show ¬ (defaultHit.bBlockingHit = true) from by
      rw [show defaultHit.bBlockingHit = false from rfl]; exact Bool.false_ne_true)]
    simp
  refine ⟨hres1, ?_, ?_⟩
  · unfold setFootTargetLocation applyFootResult
    rw [hres1]
  · unfold setFootTargetLocation applyFootResult
    rw [hres1]
    try rfl

/-- Witness for C10: anchor at the origin, line miss, one blocking foothold
candidate; the candidate list is nonempty yet the leg resolves as a miss. -/
theorem C10_foothold_filter_zero_vector_witness :
    (cfgAdv.solverType = SolverType.advanced
      ∧ envVol.lineHit 0 = none
      ∧ (∀ h ∈ envVol.footholdHits 0,
          ¬ vdist (probeAnchor cfgAdv envVol motionW 0) h.impactPoint
              < vdist (probeAnchor cfgAdv envVol motionW 0) (0 : Vec3))
      ∧ envVol.footholdHits 0 ≠ [])
    ∧ (resolveHit cfgAdv envVol motionW legW 0).1 = false := by
  have h1 : cfgAdv.solverType = SolverType.advanced := rfl
  have h2 : envVol.lineHit 0 = none := rfl
  have hanchor : probeAnchor cfgAdv envVol motionW 0 = (0 : Vec3) := by
    apply Vec3.ext <;> norm_num [probeAnchor, cfgAdv, cfgW, envVol, envW, motionW]
  have hzero : vdist (probeAnchor cfgAdv envVol motionW 0) (0 : Vec3) = 0 := by
    rw [hanchor]
    unfold vdist vsize
    norm_num
  have h3 : ∀ h ∈ envVol.footholdHits 0,
      ¬ vdist (probeAnchor cfgAdv envVol motionW 0) h.impactPoint
          < vdist (probeAnchor cfgAdv envVol motionW 0) (0 : Vec3) := by
    intro h _
    rw [hzero]
    exact not_lt.mpr (vdist_nonneg _ _)
  have h4 : envVol.footholdHits 0 ≠ [] := by simp [envVol, envW]
  exact ⟨⟨h1, h2, h3, h4⟩,
    (C10_foothold_filter_zero_vector cfgAdv envVol motionW groupsPlantedW legW 0 h1 h2 h3).1⟩

/-! Facts supporting the slope-multiplier claim. -/

theorem mapRangeClamped_unit (v a : ℝ) (h0 : 0 ≤ v) (h1 : v ≤ 1) :
    mapRangeClamped v 0 1 a 1 = a + v * (1 - a) := by
  unfold mapRangeClamped lerp clamp
  rw [sub_zero, sub_zero, div_one, min_eq_right h1, max_eq_right h0]

theorem cos_sq_ne_half : Real.cos (8100 / Real.pi) ^ 2 ≠ 1 / 2 := by
  intro heq
  have hπ : Real.pi ≠ 0 := Real.pi_ne_zero
  have hc2 : Real.cos (2 * (8100 / Real.pi)) = 0 := by
    rw [Real.cos_two_mul, heq]
    norm_num
  obtain ⟨k, hk⟩ := Real.cos_eq_zero_iff.mp hc2
  have hk2 : (2 * (k : ℝ) + 1) * Real.pi ^ 2 = 32400 := by
    have h2 : (16200 : ℝ) = (2 * (k : ℝ) + 1) * Real.pi ^ 2 / 2 := by
      calc (16200 : ℝ) = Real.pi * (2 * (8100 / Real.pi)) := by
            field_simp
            norm_num
        _ = Real.pi * ((2 * (k : ℝ) + 1) * Real.pi / 2) := by rw [hk]
        _ = (2 * (k : ℝ) + 1) * Real.pi ^ 2 / 2 := by ring
    linarith
  have hgt : (3.141592 : ℝ) < Real.pi := Real.pi_gt_d6
  have hlt : Real.pi < 3.141593 := Real.pi_lt_d6
  have hsql : (9.86960029 : ℝ) < Real.pi ^ 2 := by nlinarith [hgt, Real.pi_pos]
  have hsqu : Real.pi ^ 2 < (9.86960658 : ℝ) := by nlinarith [hlt, Real.pi_pos]
  have hlow : (3282 : ℝ) < 2 * (k : ℝ) + 1 := by
    nlinarith [hk2, hsqu, sq_nonneg Real.pi]
  have hhigh : (2 * (k : ℝ) + 1) < 3283 := by
    nlinarith [hk2, hsql, sq_nonneg Real.pi]
  have hlow' : (3282 : ℤ) < 2 * k + 1 := by exact_mod_cast hlow
  have hhigh' : (2 * k + 1 : ℤ) < 3283 := by exact_mod_cast hhigh
  omega

theorem sqrt_two_div_two_le_one : Real.sqrt 2 / 2 ≤ 1 := by
  nlinarith [Real.sq_sqrt (by norm_num : (0:ℝ) ≤ 2), Real.sqrt_nonneg 2]

/-- C8 is right about the intent but the code contradicts it (and its own
comment "abs cos so 0 deg = 1 and plus or minus 90 deg = 0"): ComputeBodyRotation feeds
the pitch angle, which is already in degrees, through RadiansToDegrees
before taking the cosine.  At average feet targets one unit apart in x and z
the pitch is 45 degrees, and the code's multiplier differs from the
spec-described cosine-mapped value. -/
theorem C8_slope_multiplier_code_vs_spec :
    reduceSlopeMultiplierPitch cfgW avgFwd8 avgBack8
      ≠ specSlopeMultiplierOfAngle (pitchFromFeetLocations cfgW avgFwd8 avgBack8)
          cfgW.stepSlopeReductionMultiplier := by
  have hπ : Real.pi ≠ 0 := Real.pi_ne_zero
  have hpitch : pitchFromFeetLocations cfgW avgFwd8 avgBack8 = 45 := by
    unfold pitchFromFeetLocations
    rw [if_pos (show cfgW.bBodyRotateOnFeetLocations = true from rfl)]
    rw [show (avgFwd8.z - avgBack8.z) / (avgFwd8.x - avgBack8.x) = 1 by
      norm_num [avgFwd8, avgBack8]]
    unfold degAtan radiansToDegrees
    rw [Real.arctan_one]
    field_simp
    ring
  have hcode : reduceSlopeMultiplierPitch cfgW avgFwd8 avgBack8
      = 1 / 4 + |Real.cos (8100 / Real.pi)| * (3 / 4) := by
    unfold reduceSlopeMultiplierPitch
    rw [hpitch]
    unfold radiansToDegrees
    rw [show (45 : ℝ) * (180 / Real.pi) = 8100 / Real.pi by
      field_simp; ring]
    rw [mapRangeClamped_unit _ _ (abs_nonneg _) (Real.abs_cos_le_one _)]
    norm_num [cfgW]
  have hspec : specSlopeMultiplierOfAngle 45 cfgW.stepSlopeReductionMultiplier
      = 1 / 4 + (Real.sqrt 2 / 2) * (3 / 4) := by
    unfold specSlopeMultiplierOfAngle degreesToRadians
    rw [show (45 : ℝ) * (Real.pi / 180) = Real.pi / 4 by
      field_simp; ring]
    rw [Real.cos_pi_div_four]
    rw [abs_of_nonneg (by positivity)]
    rw [mapRangeClamped_unit _ _ (by positivity) sqrt_two_div_two_le_one]
    norm_num [cfgW]
  rw [hpitch, hcode, hspec]
  intro heq
  have hceq : |Real.cos (8100 / Real.pi)| = Real.sqrt 2 / 2 := by linarith
  have hsq : Real.cos (8100 / Real.pi) ^ 2 = 1 / 2 := by
    have habs := congrArg (fun x : ℝ => x ^ 2) hceq
    simp only [sq_abs] at habs
    rw [habs, div_pow, Real.sq_sqrt (by norm_num : (0:ℝ) ≤ 2)]
    norm_num
  exact cos_sq_ne_half hsq

end SPW
